import Mathlib

/-!
# SoftRF, ESP32 platform layer (`src/platform/ESP32.cpp`)

A shallow embedding of the hardware classification, the interrupt flags and
the control loop of `ESP32.cpp`.

Conventions of the embedding

* Global variables of the translation unit are the fields of `State`.
* Every call into a driver or collaborator that lives outside `ESP32.cpp`
  (the AXP PMU driver, `Wire`, `shutdown`, the OLED pages, ...) is recorded as
  an `Action`; a function of the source becomes a function
  `State → State × List Action` (with a return value in front when it has one).
  Whatever those collaborators do to their own state is outside this file; the
  embedding assumes they do not write the globals of `ESP32.cpp`.
* Every value the source reads from hardware (PSRAM presence, flash id, fuses,
  I2C acknowledgements, PMU IRQ status) is a field of the environment record of
  the function that reads it.
* Macros and build flags defined in headers that are not part of `ESP32.cpp`
  are the fields of `Platform`.
* `Serial.print` logging is not recorded.
-/

namespace SoftRF

/-! ## Enumerations -/

/-- Values of `hw_info.model`. `ESP32.cpp` names three enumerators of the model
enumeration, which are pairwise distinct as enumerators, so they are three
constructors; `other n` stands for every further enumerator. -/
inductive Model
  | SOFTRF_MODEL_STANDALONE
  | SOFTRF_MODEL_PRIME_MK2
  | SOFTRF_MODEL_SKYWATCH
  | other (n : Nat)
  deriving DecidableEq, Repr

/-- Values of `esp32_board` (a file-static `int` that only ever holds one of the
board enumerators assigned in `ESP32.cpp`). -/
inductive Board
  | ESP32_DEVKIT
  | ESP32_TTGO_V2_OLED
  | ESP32_HELTEC_OLED
  | ESP32_TTGO_T_BEAM
  | ESP32_TTGO_T_WATCH
  deriving DecidableEq, Repr

/-- Values of `hw_info.rf` that `ESP32_Baro_setup` tells apart. -/
inductive RfIc
  | RF_IC_SX1276
  | RF_IC_SX1262
  | other (n : Nat)
  deriving DecidableEq, Repr

/-- Values of `hw_info.display` and return values of `ESP32_Display_setup`. -/
inductive Display
  | DISPLAY_NONE
  | DISPLAY_OLED_TTGO
  | DISPLAY_OLED_HELTEC
  | DISPLAY_TFT_TTGO
  | other (n : Nat)
  deriving DecidableEq, Repr

/-- The two OLED driver objects `u8x8` may point to. -/
inductive OledDriver
  | u8x8_ttgo
  | u8x8_heltec
  deriving DecidableEq, Repr

/-- Values of `settings->nmea_out`. -/
inductive NmeaOut
  | NMEA_USB
  | NMEA_UART
  | other (n : Nat)
  deriving DecidableEq, Repr

/-- Values of `settings->gdl90`. -/
inductive Gdl90Out
  | GDL90_USB
  | GDL90_UART
  | other (n : Nat)
  deriving DecidableEq, Repr

/-- Values of `settings->d1090`. -/
inductive D1090Out
  | D1090_USB
  | D1090_UART
  | other (n : Nat)
  deriving DecidableEq, Repr

/-- The two I2C controllers. -/
inductive Bus
  | Wire
  | Wire1
  deriving DecidableEq, Repr

/-- The (SDA, SCL) macro pairs passed to `Wire.begin` / `Wire1.begin`. -/
inductive BusPins
  | SOC_GPIO_PIN_TWATCH_SEN
  | TTGO_V2_OLED_PIN
  | HELTEC_OLED_PIN
  | SOC_GPIO_PIN_TBEAM
  | SOC_GPIO_PIN
  deriving DecidableEq, Repr

/-- I2C slave addresses probed or opened by `ESP32.cpp`. -/
inductive I2CAddr
  | AXP202_SLAVE_ADDRESS
  | AXP192_SLAVE_ADDRESS
  | SSD1306_OLED_I2C_ADDR
  deriving DecidableEq, Repr

/-- Power channels of the PMU named by `ESP32.cpp`. -/
inductive Rail
  | AXP202_LDO2
  | AXP202_LDO3
  | AXP202_LDO4
  | AXP192_LDO2
  | AXP192_LDO3
  | AXP192_DCDC1
  | AXP192_DCDC2
  | AXP192_DCDC3
  | AXP192_EXTEN
  deriving DecidableEq, Repr

/-- Charge LED modes. -/
inductive LedMode
  | AXP20X_LED_OFF
  | AXP20X_LED_LOW_LEVEL
  | AXP20X_LED_BLINK_1HZ
  deriving DecidableEq, Repr

/-- IRQ selections passed to `axp.enableIRQ`. -/
inductive IrqMask
  | AXP202_ALL_IRQ
  | PEK_LONGPRESS_or_SHORTPRESS
  deriving DecidableEq, Repr

/-- ADC selections passed to `axp.adc1Enable`. -/
inductive AdcMask
  | all_0xFF
  | AXP202_BATT_VOL_ADC1
  deriving DecidableEq, Repr

/-- The PMU interrupt lines. -/
inductive PmuIrqPin
  | SOC_GPIO_PIN_TWATCH_PMU_IRQ
  | SOC_GPIO_PIN_TBEAM_V08_PMU_IRQ
  deriving DecidableEq, Repr

/-- Shutdown reasons passed to `shutdown`. -/
inductive ShutdownReason
  | SOFTRF_SHUTDOWN_BUTTON
  | other (n : Nat)
  deriving DecidableEq, Repr

/-- ADC channels passed to `calibrate_voltage`. -/
inductive AdcChannel
  | ADC1_GPIO35_CHANNEL
  | ADC1_GPIO36_CHANNEL
  deriving DecidableEq, Repr

/-- The (RX, TX) macro pairs passed to `swSer.begin`. -/
inductive SerialPins
  | SOC_GPIO_PIN_TBEAM_V08
  | SOC_GPIO_PIN_TBEAM_V05
  | SOC_GPIO_PIN_TWATCH
  | TTGO_V2_PIN_GNSS
  | SOC_GPIO_PIN_GNSS
  deriving DecidableEq, Repr

/-- The pin sets passed to `SPI.begin` by `ESP32_SPI_begin`. -/
inductive SpiPins
  | SOC_GPIO_PIN
  | SOC_GPIO_PIN_TWATCH_TFT
  deriving DecidableEq, Repr

/-- Button objects a button event can come from: `button_1` of `ESP32.cpp`,
or any other `AceButton`. -/
inductive ButtonRef
  | button_1
  | other (n : Nat)
  deriving DecidableEq, Repr

/-- AceButton event types: the four that `handleEvent` has a case label for,
and `other n` for every further event type. -/
inductive EventType
  | kEventClicked
  | kEventReleased
  | kEventDoubleClicked
  | kEventLongPressed
  | other (n : Nat)
  deriving DecidableEq, Repr

/-- Calls that leave `ESP32.cpp`, in the order the source issues them.
`u8x8_splash` is the group `begin`, `setFont`, `clear`, `draw2x2String`,
`drawString`, `drawString` of lines 833-838; `tft_splash` is the group of lines
847-867 on the freshly allocated `tft`; `button_init` is the group of lines
1204-1217. -/
inductive Action
  | WRITE_PERI_REG_BROWN_OUT
  | ledcSetup_BUZZER
  | Wire_begin (bus : Bus) (pins : BusPins)
  | Wire_probe (bus : Bus) (addr : I2CAddr)
  | axp_begin (addr : I2CAddr)
  | axp_enableIRQ (mask : IrqMask) (enable : Bool)
  | axp_adc1Enable (mask : AdcMask) (enable : Bool)
  | axp_setChgLEDMode (mode : LedMode)
  | axp_setPowerOutPut (rail : Rail) (enable : Bool)
  | axp_setLDO4Voltage_1800MV
  | axp_setDCDC1Voltage (mv : Nat)
  | axp_setLDO2Voltage (mv : Nat)
  | axp_setLDO3Voltage (mv : Nat)
  | pinMode_INPUT_PULLUP (pin : PmuIrqPin)
  | attachInterrupt_PMU (pin : PmuIrqPin)
  | axp_clearIRQ
  | axp_readIRQ
  | OLED_Next_Page
  | OLED_info1
  | shutdown (reason : ShutdownReason)
  | u8x8_splash (drv : OledDriver)
  | tft_splash
  | calibrate_voltage (ch : AdcChannel)
  | swSer_begin (baud : Nat) (pins : SerialPins)
  | Baro_probe
  | SPI_begin (pins : SpiPins)
  | button_init
  | button_check
  | SPI_end
  | esp_wifi_stop
  | esp_bt_controller_disable
  | delay (ms : Nat)
  | axp_setSleep
  | esp_sleep_enable_ext1_wakeup (pin : PmuIrqPin)
  | axp_shutdown
  | esp_deep_sleep_start
  | esp_wifi_set_max_tx_power (level : Int)
  | tcpip_adapter_dhcps_option_lease_time (lt : Nat)
  deriving DecidableEq, Repr

/-! ## Constants from headers and the build -/

/-- Macros and build flags that `ESP32.cpp` uses and that are defined in headers
outside it. The four flash ids are the case labels of the `switch` in
`ESP32_setup`; C requires the labels of one `switch` to be pairwise distinct,
which `case_labels_distinct` records. -/
structure Platform where
  SOFTRF_ADDRESS : Option Nat
  ESP32_DISABLE_BROWNOUT_DETECTOR : Bool
  USE_OLED : Bool
  USE_TFT : Bool
  ENABLE_AHRS : Bool
  PMK2_SLEEP_MODE : Nat
  MakeFlashId : Nat → Nat → Nat
  GIGADEVICE_ID : Nat
  GIGADEVICE_GD25LQ32 : Nat
  WINBOND_NEX_ID : Nat
  WINBOND_NEX_W25Q128_V : Nat
  WINBOND_NEX_W25Q32_V : Nat
  BOYA_ID : Nat
  BOYA_BY25Q32AL : Nat
  EFUSE_RD_CHIP_VER_PKG_ESP32PICOD4 : Nat
  SOC_GPIO_PIN_RST : Nat
  SOC_GPIO_PIN_TXE : Nat
  SOC_GPIO_PIN_TBEAM_RF_RST_V05 : Nat
  SOC_GPIO_PIN_TBEAM_RF_BUSY_V08 : Nat
  ESP_OK : Int
  AXP_PASS : Int
  case_labels_distinct :
    [MakeFlashId GIGADEVICE_ID GIGADEVICE_GD25LQ32,
     MakeFlashId WINBOND_NEX_ID WINBOND_NEX_W25Q128_V,
     MakeFlashId WINBOND_NEX_ID WINBOND_NEX_W25Q32_V,
     MakeFlashId BOYA_ID BOYA_BY25Q32AL].Nodup

/-- The flash id of the ESP32-WROVER module (first case label). -/
def Platform.flash_GD25LQ32 (k : Platform) : Nat :=
  k.MakeFlashId k.GIGADEVICE_ID k.GIGADEVICE_GD25LQ32

/-- The flash id of the T-Watch (second case label). -/
def Platform.flash_W25Q128_V (k : Platform) : Nat :=
  k.MakeFlashId k.WINBOND_NEX_ID k.WINBOND_NEX_W25Q128_V

/-- The flash id of the T22 V06/V08 and T5S V1.9 (third case label). -/
def Platform.flash_W25Q32_V (k : Platform) : Nat :=
  k.MakeFlashId k.WINBOND_NEX_ID k.WINBOND_NEX_W25Q32_V

/-- The flash id of the T22 V11 and T5S V2.8 (fourth case label). -/
def Platform.flash_BY25Q32AL (k : Platform) : Nat :=
  k.MakeFlashId k.BOYA_ID k.BOYA_BY25Q32AL

/-- A concrete platform used to instantiate the theorems: the values the
mainline SoftRF headers and the ESP-IDF give to the macros, with OLED and TFT
support compiled in and `SOFTRF_ADDRESS` undefined. -/
def ttgoPlatform : Platform where
  SOFTRF_ADDRESS := none
  ESP32_DISABLE_BROWNOUT_DETECTOR := false
  USE_OLED := true
  USE_TFT := true
  ENABLE_AHRS := false
  PMK2_SLEEP_MODE := 1
  MakeFlashId := fun v d => v * 65536 + d
  GIGADEVICE_ID := 0xC8
  GIGADEVICE_GD25LQ32 := 0x6016
  WINBOND_NEX_ID := 0xEF
  WINBOND_NEX_W25Q128_V := 0x4018
  WINBOND_NEX_W25Q32_V := 0x4016
  BOYA_ID := 0x68
  BOYA_BY25Q32AL := 0x4016
  EFUSE_RD_CHIP_VER_PKG_ESP32PICOD4 := 5
  SOC_GPIO_PIN_RST := 14
  SOC_GPIO_PIN_TXE := 26
  SOC_GPIO_PIN_TBEAM_RF_RST_V05 := 23
  SOC_GPIO_PIN_TBEAM_RF_BUSY_V08 := 32
  ESP_OK := 0
  AXP_PASS := 0
  case_labels_distinct := by decide

/-! ## State -/

/-- The fields of `hw_info` that `ESP32.cpp` reads or writes. -/
structure HardwareInfo where
  model : Model
  revision : Nat
  rf : RfIc
  display : Display
  deriving DecidableEq, Repr

/-- The fields of `lmic_pins` that `ESP32.cpp` writes after initialisation. -/
structure LmicPinmap where
  rst : Nat
  busy : Nat
  deriving DecidableEq, Repr

/-- The fields of `settings` that `ESP32_post_init` normalises. -/
structure Settings where
  nmea_out : NmeaOut
  gdl90 : Gdl90Out
  d1090 : D1090Out
  deriving DecidableEq, Repr

/-- The globals used by the embedded functions. `chipmacid` is the 64-bit view
of the anonymous union whose first six bytes are `efuse_mac`. -/
structure State where
  hw_info : HardwareInfo
  esp32_board : Board
  lmic_pins : LmicPinmap
  PMU_Irq : Bool
  PPS_TimeMarker : Nat
  GPIO_21_22_are_busy : Bool
  u8x8 : Option OledDriver
  tft : Bool
  chipmacid : Nat
  settings : Settings
  deriving DecidableEq, Repr

/-- Modelled from the spec: the static initialiser of `hw_info` is outside
`ESP32.cpp`; the spec names the baseline "standalone" profile as the default, so
the power-on record holds `SOFTRF_MODEL_STANDALONE`, revision 0 and no radio or
display. -/
def boot_hw_info : HardwareInfo :=
  { model := Model.SOFTRF_MODEL_STANDALONE, revision := 0,
    rf := RfIc.other 0, display := Display.DISPLAY_NONE }

/-- The globals at power-on: the initialisers at lines 53-61 and 98-111 of
`ESP32.cpp`, `boot_hw_info`, and the given externally owned settings. -/
def bootState (k : Platform) (settings : Settings) : State :=
  { hw_info := boot_hw_info
    esp32_board := Board.ESP32_DEVKIT
    lmic_pins := { rst := k.SOC_GPIO_PIN_RST, busy := k.SOC_GPIO_PIN_TXE }
    PMU_Irq := false
    PPS_TimeMarker := 0
    GPIO_21_22_are_busy := false
    u8x8 := none
    tft := false
    chipmacid := 0
    settings := settings }

/-- Some settings record, for concrete instances. -/
def sampleSettings : Settings :=
  { nmea_out := NmeaOut.NMEA_UART, gdl90 := Gdl90Out.other 0, d1090 := D1090Out.other 0 }

/-! ## Interrupt handlers and flag readers -/

/-- Embedding of `ESP32_PMU_Interrupt_handler` (lines 117-121): one critical section that
sets `PMU_Irq`. -/
def ESP32_PMU_Interrupt_handler (s : State) : State :=
  { s with PMU_Irq := true }

/-- Embedding of `ESP32_GNSS_PPS_Interrupt_handler` (lines 1065-1070): stores `millis()`,
an `unsigned long` like `PPS_TimeMarker`, under the PPS critical section. -/
def ESP32_GNSS_PPS_Interrupt_handler (millis : Nat) (s : State) : State :=
  { s with PPS_TimeMarker := millis }

/-- Embedding of `ESP32_get_PPS_TimeMarker` (lines 1072-1079): returns the marker read
under the PPS critical section; no global is written. -/
def ESP32_get_PPS_TimeMarker (s : State) : Nat × State :=
  (s.PPS_TimeMarker, s)

/-! ## `ESP32_setup` -/

/-- What `ESP32_setup` reads from the hardware. -/
structure SetupEnv where
  /-- return value of `esp_efuse_mac_get_custom(efuse_mac)` -/
  efuse_ret : Int
  /-- the six bytes found in `efuse_mac` after that call, little-endian -/
  efuse_mac : Nat
  /-- value of `ESP.getEfuseMac()` -/
  getEfuseMac : Nat
  /-- result of `psramFound()` -/
  psramFound : Bool
  /-- value of `g_rom_flashchip.device_id` -/
  flash_id : Nat
  /-- value of `REG_GET_FIELD(EFUSE_BLK0_RDATA3_REG, EFUSE_RD_CHIP_VER_PKG)` -/
  chip_ver : Nat
  /-- result of `Wire1.endTransmission()` for the probe at `AXP202_SLAVE_ADDRESS` -/
  endTransmission_AXP202 : Nat
  /-- result of `Wire1.endTransmission()` for the probe at `AXP192_SLAVE_ADDRESS` -/
  endTransmission_AXP192 : Nat
  deriving DecidableEq, Repr

/-- Lines 130-151: the unique id. The call fills the six bytes of `efuse_mac`,
that is the low 48 bits of `chipmacid`; on an error return, or on an all-zero
MAC, `chipmacid` is overwritten with `ESP.getEfuseMac()`. Compiled out when
`SOFTRF_ADDRESS` is defined. -/
def setup_identity (k : Platform) (env : SetupEnv) (s : State) : State :=
  match k.SOFTRF_ADDRESS with
  | some _ => s
  | none =>
    let mac := env.efuse_mac % 2 ^ 48
    let s1 := { s with chipmacid := (s.chipmacid / 2 ^ 48) * 2 ^ 48 + mac }
    if env.efuse_ret ≠ k.ESP_OK then
      { s1 with chipmacid := env.getEfuseMac % 2 ^ 64 }
    else if mac = 0 then
      { s1 with chipmacid := env.getEfuseMac % 2 ^ 64 }
    else s1

/-- Lines 157-199: the decision on flash identity, or on the package fuse
when no PSRAM is found. The labels `W25Q32_V` and `BY25Q32AL` share the body of
`default`. -/
def setup_classify (k : Platform) (env : SetupEnv) (s : State) : State :=
  if env.psramFound then
    let flash_id := env.flash_id
    if flash_id = k.flash_GD25LQ32 then
      { s with hw_info := { s.hw_info with model := Model.SOFTRF_MODEL_STANDALONE } }
    else if flash_id = k.flash_W25Q128_V then
      { s with hw_info := { s.hw_info with model := Model.SOFTRF_MODEL_SKYWATCH } }
    else
      { s with hw_info := { s.hw_info with model := Model.SOFTRF_MODEL_PRIME_MK2 } }
  else
    let chip_ver := env.chip_ver
    let pkg_ver := chip_ver &&& 0x7
    if pkg_ver = k.EFUSE_RD_CHIP_VER_PKG_ESP32PICOD4 then
      { s with
        esp32_board := Board.ESP32_TTGO_V2_OLED
        lmic_pins := { rst := k.SOC_GPIO_PIN_TBEAM_RF_RST_V05,
                       busy := k.SOC_GPIO_PIN_TBEAM_RF_BUSY_V08 } }
    else s

/-- Lines 203-266: board selection and PMU bring-up for the two PMU models. -/
def setup_pmu (k : Platform) (env : SetupEnv) (s : State) : State × List Action :=
  if s.hw_info.model = Model.SOFTRF_MODEL_SKYWATCH then
    let s1 := { s with esp32_board := Board.ESP32_TTGO_T_WATCH }
    let probe := [Action.Wire_begin Bus.Wire1 BusPins.SOC_GPIO_PIN_TWATCH_SEN,
                  Action.Wire_probe Bus.Wire1 I2CAddr.AXP202_SLAVE_ADDRESS]
    if env.endTransmission_AXP202 = 0 then
      (s1, probe ++
        [Action.axp_begin I2CAddr.AXP202_SLAVE_ADDRESS,
         Action.axp_enableIRQ IrqMask.AXP202_ALL_IRQ false,
         Action.axp_adc1Enable AdcMask.all_0xFF false,
         Action.axp_setChgLEDMode LedMode.AXP20X_LED_LOW_LEVEL,
         Action.axp_setPowerOutPut Rail.AXP202_LDO2 true,
         Action.axp_setPowerOutPut Rail.AXP202_LDO3 true,
         Action.axp_setLDO4Voltage_1800MV,
         Action.axp_setPowerOutPut Rail.AXP202_LDO4 true,
         Action.pinMode_INPUT_PULLUP PmuIrqPin.SOC_GPIO_PIN_TWATCH_PMU_IRQ,
         Action.attachInterrupt_PMU PmuIrqPin.SOC_GPIO_PIN_TWATCH_PMU_IRQ,
         Action.axp_adc1Enable AdcMask.AXP202_BATT_VOL_ADC1 true,
         Action.axp_enableIRQ IrqMask.PEK_LONGPRESS_or_SHORTPRESS true,
         Action.axp_clearIRQ])
    else (s1, probe)
  else if s.hw_info.model = Model.SOFTRF_MODEL_PRIME_MK2 then
    let s1 := { s with esp32_board := Board.ESP32_TTGO_T_BEAM }
    let probe := [Action.Wire_begin Bus.Wire1 BusPins.TTGO_V2_OLED_PIN,
                  Action.Wire_probe Bus.Wire1 I2CAddr.AXP192_SLAVE_ADDRESS]
    let pins : LmicPinmap := { rst := k.SOC_GPIO_PIN_TBEAM_RF_RST_V05,
                               busy := k.SOC_GPIO_PIN_TBEAM_RF_BUSY_V08 }
    if env.endTransmission_AXP192 = 0 then
      ({ s1 with hw_info := { s1.hw_info with revision := 8 }, lmic_pins := pins },
       probe ++
        [Action.axp_begin I2CAddr.AXP192_SLAVE_ADDRESS,
         Action.axp_setChgLEDMode LedMode.AXP20X_LED_LOW_LEVEL,
         Action.axp_setPowerOutPut Rail.AXP192_LDO2 true,
         Action.axp_setPowerOutPut Rail.AXP192_LDO3 true,
         Action.axp_setPowerOutPut Rail.AXP192_DCDC1 true,
         Action.axp_setPowerOutPut Rail.AXP192_DCDC2 true,
         Action.axp_setPowerOutPut Rail.AXP192_EXTEN true,
         Action.axp_setDCDC1Voltage 3300,
         Action.axp_setLDO2Voltage 3300,
         Action.axp_setLDO3Voltage 3000,
         Action.pinMode_INPUT_PULLUP PmuIrqPin.SOC_GPIO_PIN_TBEAM_V08_PMU_IRQ,
         Action.attachInterrupt_PMU PmuIrqPin.SOC_GPIO_PIN_TBEAM_V08_PMU_IRQ,
         Action.axp_enableIRQ IrqMask.PEK_LONGPRESS_or_SHORTPRESS true,
         Action.axp_clearIRQ])
    else
      ({ s1 with hw_info := { s1.hw_info with revision := 2 }, lmic_pins := pins }, probe)
  else (s, [])

/-- Embedding of `ESP32_setup` (lines 128-267): identity, brown-out register,
classification, buzzer channel, PMU bring-up, in source order. -/
def ESP32_setup (k : Platform) (env : SetupEnv) (s : State) : State × List Action :=
  let s1 := setup_identity k env s
  let brownout := if k.ESP32_DISABLE_BROWNOUT_DETECTOR
                  then [Action.WRITE_PERI_REG_BROWN_OUT] else []
  let s2 := setup_classify k env s1
  let r := setup_pmu k env s2
  (r.1, brownout ++ [Action.ledcSetup_BUZZER] ++ r.2)

/-! ## `ESP32_post_init` -/

/-- Embedding of `ESP32_post_init` (lines 269-293): the three USB output modes
are replaced by their UART counterparts; with an OLED the first info page is
shown. -/
def ESP32_post_init (k : Platform) (s : State) : State × List Action :=
  let st0 := s.settings
  let st1 := if st0.nmea_out = NmeaOut.NMEA_USB
             then { st0 with nmea_out := NmeaOut.NMEA_UART } else st0
  let st2 := if st1.gdl90 = Gdl90Out.GDL90_USB
             then { st1 with gdl90 := Gdl90Out.GDL90_UART } else st1
  let st3 := if st2.d1090 = D1090Out.D1090_USB
             then { st2 with d1090 := D1090Out.D1090_UART } else st2
  let page :=
    if k.USE_OLED ∧ (s.hw_info.display = Display.DISPLAY_OLED_TTGO ∨
                     s.hw_info.display = Display.DISPLAY_OLED_HELTEC)
    then [Action.OLED_info1] else []
  ({ s with settings := st3 }, page)

/-! ## `ESP32_loop` -/

/-- The gate of lines 297-299, 1026-1028 and 1044-1046: the board has a PMU. -/
def has_PMU (s : State) : Prop :=
  (s.hw_info.model = Model.SOFTRF_MODEL_PRIME_MK2 ∧ s.hw_info.revision = 8) ∨
  s.hw_info.model = Model.SOFTRF_MODEL_SKYWATCH

instance has_PMU_decidable (s : State) : Decidable (has_PMU s) := by
  unfold has_PMU
  infer_instance

/-- What one iteration of `ESP32_loop` reads from its collaborators. -/
structure LoopEnv where
  /-- return value of `axp.readIRQ()` -/
  readIRQ : Int
  /-- result of `axp.isPEKLongtPressIRQ()` -/
  isPEKLongtPressIRQ : Bool
  /-- result of `axp.isPEKShortPressIRQ()` -/
  isPEKShortPressIRQ : Bool
  /-- result of `isTimeToBattery()` -/
  isTimeToBattery : Bool
  /-- outcome of `Battery_voltage() > Battery_threshold()` -/
  battery_above_threshold : Bool
  deriving DecidableEq, Repr

/-- First critical section of `ESP32_loop` (lines 304-306): the value read
into `is_irq`. -/
def loop_read (s : State) : Bool :=
  s.PMU_Irq

/-- Lines 308-330 of `ESP32_loop`: service of the PMU IRQ status. Returns the
local `down` and the calls made. -/
def loop_service (k : Platform) (env : LoopEnv) (is_irq : Bool) : Bool × List Action :=
  if is_irq then
    if env.readIRQ = k.AXP_PASS then
      let down := env.isPEKLongtPressIRQ
      let page := if env.isPEKShortPressIRQ ∧ k.USE_OLED
                  then [Action.OLED_Next_Page] else []
      (down, [Action.axp_readIRQ] ++ page ++ [Action.axp_clearIRQ])
    else (false, [Action.axp_readIRQ])
  else (false, [])

/-- Second critical section of `ESP32_loop` (lines 332-334), inside
`if (is_irq)`: `PMU_Irq = false`. -/
def loop_clear (is_irq : Bool) (s : State) : State :=
  if is_irq then { s with PMU_Irq := false } else s

/-- Lines 336-347 of `ESP32_loop`: the shutdown call (inside `if (is_irq)`)
and the periodic battery check. -/
def loop_tail (env : LoopEnv) (is_irq down : Bool) : List Action :=
  (if is_irq ∧ down
   then [Action.shutdown ShutdownReason.SOFTRF_SHUTDOWN_BUTTON] else []) ++
  (if env.isTimeToBattery then
     if env.battery_above_threshold
     then [Action.axp_setChgLEDMode LedMode.AXP20X_LED_LOW_LEVEL]
     else [Action.axp_setChgLEDMode LedMode.AXP20X_LED_BLINK_1HZ]
   else [])

/-- Embedding of `ESP32_loop` (lines 295-349), run without preemption. The
call of `shutdown` is recorded; what `shutdown` does, and whether it returns,
belongs to its own translation unit. -/
def ESP32_loop (k : Platform) (env : LoopEnv) (s : State) : State × List Action :=
  if has_PMU s then
    let is_irq := loop_read s
    let sv := loop_service k env is_irq
    let s1 := loop_clear is_irq s
    (s1, sv.2 ++ loop_tail env is_irq sv.1)
  else (s, [])

/-- Points of one `ESP32_loop` iteration at which the PMU interrupt can fire:
before the first critical section, between the first critical section and the
second one (the handler cannot run inside a critical section), and after the
second. -/
structure IrqSchedule where
  before_read : Bool
  between_read_and_clear : Bool
  after_clear : Bool
  deriving DecidableEq, Repr

/-- Run `ESP32_PMU_Interrupt_handler` when the interrupt fires. -/
def irq_when (fires : Bool) (s : State) : State :=
  if fires then ESP32_PMU_Interrupt_handler s else s

/-- One iteration of `ESP32_loop` interleaved with the PMU interrupt handler
according to a schedule. The handler writes `PMU_Irq` only, so the gate is
evaluated on the same `hw_info` wherever the handler runs. -/
def ESP32_loop_preempted (k : Platform) (env : LoopEnv) (p : IrqSchedule)
    (s : State) : State × List Action :=
  if has_PMU s then
    let s0 := irq_when p.before_read s
    let is_irq := loop_read s0
    let sv := loop_service k env is_irq
    let s1 := irq_when p.between_read_and_clear s0
    let s2 := loop_clear is_irq s1
    let s3 := irq_when p.after_clear s2
    (s3, sv.2 ++ loop_tail env is_irq sv.1)
  else (irq_when (p.before_read || p.between_read_and_clear || p.after_clear) s, [])

/-! ## Display, battery, barometer, serial, button -/

/-- Embedding of `ESP32_SPI_begin` (lines 734-742). -/
def ESP32_SPI_begin (s : State) : List Action :=
  if s.esp32_board ≠ Board.ESP32_TTGO_T_WATCH
  then [Action.SPI_begin SpiPins.SOC_GPIO_PIN]
  else [Action.SPI_begin SpiPins.SOC_GPIO_PIN_TWATCH_TFT]

/-- What `ESP32_Display_setup` reads: the two probes at `SSD1306_OLED_I2C_ADDR`
(at most one probe per bus in one call) and the global
`RF_SX12XX_RST_is_connected`. -/
structure DisplayEnv where
  /-- result of `Wire.endTransmission()` -/
  Wire_endTransmission : Nat
  /-- result of `Wire1.endTransmission()` -/
  Wire1_endTransmission : Nat
  /-- value of the global `RF_SX12XX_RST_is_connected` -/
  RF_SX12XX_RST_is_connected : Bool
  deriving DecidableEq, Repr

/-- Lines 794-830 of `ESP32_Display_setup`: the OLED probing. -/
def display_probe (env : DisplayEnv) (s : State) : Display × State × List Action :=
  let heltec := [Action.Wire_begin Bus.Wire1 BusPins.HELTEC_OLED_PIN,
                 Action.Wire_probe Bus.Wire1 I2CAddr.SSD1306_OLED_I2C_ADDR]
  let ttgo := [Action.Wire_begin Bus.Wire BusPins.SOC_GPIO_PIN_TBEAM,
               Action.Wire_probe Bus.Wire I2CAddr.SSD1306_OLED_I2C_ADDR]
  let found_heltec : State :=
    { s with u8x8 := some OledDriver.u8x8_heltec, esp32_board := Board.ESP32_HELTEC_OLED }
  if s.GPIO_21_22_are_busy then
    if env.Wire1_endTransmission = 0 then
      (Display.DISPLAY_OLED_HELTEC, found_heltec, heltec)
    else (Display.DISPLAY_NONE, s, heltec)
  else
    if env.Wire_endTransmission = 0 then
      let s1 : State :=
        { s with u8x8 := some OledDriver.u8x8_ttgo, esp32_board := Board.ESP32_TTGO_V2_OLED }
      let s2 : State :=
        if s1.hw_info.model = Model.SOFTRF_MODEL_STANDALONE then
          if env.RF_SX12XX_RST_is_connected then
            { s1 with hw_info := { s1.hw_info with revision := 16 } }
          else
            { s1 with hw_info := { s1.hw_info with revision := 11 } }
        else s1
      (Display.DISPLAY_OLED_TTGO, s2, ttgo)
    else
      if ¬ (s.hw_info.model = Model.SOFTRF_MODEL_PRIME_MK2 ∧ s.hw_info.revision = 8) then
        if env.Wire1_endTransmission = 0 then
          (Display.DISPLAY_OLED_HELTEC, found_heltec, ttgo ++ heltec)
        else (Display.DISPLAY_NONE, s, ttgo ++ heltec)
      else (Display.DISPLAY_NONE, s, ttgo)

/-- Embedding of `ESP32_Display_setup` (lines 786-874). -/
def ESP32_Display_setup (k : Platform) (env : DisplayEnv) (s : State) :
    Display × State × List Action :=
  if s.esp32_board ≠ Board.ESP32_TTGO_T_WATCH then
    if k.USE_OLED then
      let r := display_probe env s
      let splash := match r.2.1.u8x8 with
        | some drv => [Action.u8x8_splash drv]
        | none => []
      (r.1, r.2.1, r.2.2 ++ splash)
    else (Display.DISPLAY_NONE, s, [])
  else
    if k.USE_TFT then
      (Display.DISPLAY_TFT_TTGO, { s with tft := true },
       ESP32_SPI_begin s ++ [Action.tft_splash])
    else (Display.DISPLAY_NONE, s, [])

/-- Embedding of `ESP32_Battery_setup` (lines 1024-1038). -/
def ESP32_Battery_setup (s : State) : State × List Action :=
  if has_PMU s then (s, [])
  else
    (s, [Action.calibrate_voltage
          (if s.hw_info.model = Model.SOFTRF_MODEL_PRIME_MK2 ∨
              (s.esp32_board = Board.ESP32_TTGO_V2_OLED ∧ s.hw_info.revision = 16)
           then AdcChannel.ADC1_GPIO35_CHANNEL else AdcChannel.ADC1_GPIO36_CHANNEL)])

/-- What `ESP32_Baro_setup` reads: the global `RF_SX12XX_RST_is_connected` and
the results of its first and second call of `Baro_probe()`. -/
structure BaroEnv where
  /-- value of the global `RF_SX12XX_RST_is_connected` -/
  RF_SX12XX_RST_is_connected : Bool
  /-- result of `Baro_probe()` on the first I2C bus -/
  Baro_probe_Wire : Bool
  /-- result of `Baro_probe()` on the OLED I2C bus -/
  Baro_probe_Wire1 : Bool
  deriving DecidableEq, Repr

/-- Embedding of `ESP32_Baro_setup` (lines 1081-1128). -/
def ESP32_Baro_setup (k : Platform) (env : BaroEnv) (s : State) :
    Bool × State × List Action :=
  if s.hw_info.model = Model.SOFTRF_MODEL_SKYWATCH then
    (false, s, [])
  else if s.hw_info.model ≠ Model.SOFTRF_MODEL_PRIME_MK2 then
    if (s.hw_info.rf ≠ RfIc.RF_IC_SX1276 ∧ s.hw_info.rf ≠ RfIc.RF_IC_SX1262) ∨
        env.RF_SX12XX_RST_is_connected then
      (false, s, [])
    else
      (true, s, [Action.Wire_begin Bus.Wire BusPins.SOC_GPIO_PIN])
  else
    let s1 : State :=
      if s.hw_info.revision = 2 ∧ env.RF_SX12XX_RST_is_connected then
        { s with hw_info := { s.hw_info with revision := 5 } }
      else s
    let first := [Action.Wire_begin Bus.Wire BusPins.SOC_GPIO_PIN_TBEAM, Action.Baro_probe]
    if env.Baro_probe_Wire then (true, s1, first)
    else if s1.hw_info.revision = 2 then (false, s1, first)
    else if k.ENABLE_AHRS then (false, s1, first)
    else
      let second := first ++
        [Action.Wire_begin Bus.Wire1 BusPins.TTGO_V2_OLED_PIN, Action.Baro_probe]
      if ¬ env.Baro_probe_Wire1 then (false, s1, second)
      else (true, { s1 with GPIO_21_22_are_busy := true }, second)

/-- Embedding of `ESP32_swSer_begin` (lines 744-779). -/
def ESP32_swSer_begin (baud : Nat) (s : State) : State × List Action :=
  if s.hw_info.model = Model.SOFTRF_MODEL_PRIME_MK2 then
    if s.hw_info.revision = 8 then
      (s, [Action.swSer_begin baud SerialPins.SOC_GPIO_PIN_TBEAM_V08])
    else
      (s, [Action.swSer_begin baud SerialPins.SOC_GPIO_PIN_TBEAM_V05])
  else
    if s.esp32_board = Board.ESP32_TTGO_T_WATCH then
      (s, [Action.swSer_begin baud SerialPins.SOC_GPIO_PIN_TWATCH])
    else if s.esp32_board = Board.ESP32_TTGO_V2_OLED then
      (s, [Action.swSer_begin baud SerialPins.TTGO_V2_PIN_GNSS])
    else
      (s, [Action.swSer_begin baud SerialPins.SOC_GPIO_PIN_GNSS])

/-- Embedding of `handleEvent` (lines 1171-1191). Event types without a case
label fall out of the `switch`. -/
def handleEvent (k : Platform) (button : ButtonRef) (eventType : EventType)
    (_buttonState : Nat) : List Action :=
  match eventType with
  | EventType.kEventClicked | EventType.kEventReleased =>
    if k.USE_OLED ∧ button = ButtonRef.button_1 then [Action.OLED_Next_Page] else []
  | EventType.kEventDoubleClicked => []
  | EventType.kEventLongPressed =>
    if button = ButtonRef.button_1
    then [Action.shutdown ShutdownReason.SOFTRF_SHUTDOWN_BUTTON] else []
  | EventType.other _ => []

/-- Embedding of `ESP32_Button_setup` (lines 1198-1219). -/
def ESP32_Button_setup (s : State) : State × List Action :=
  if s.hw_info.model = Model.SOFTRF_MODEL_PRIME_MK2 ∧ s.hw_info.revision = 5
  then (s, [Action.button_init]) else (s, [])

/-- Embedding of `ESP32_Button_loop` (lines 1221-1226). `button_1.check()`
dispatches the events it detects, given here with their button state, to
`handleEvent`, the handler registered by `ESP32_Button_setup`. -/
def ESP32_Button_loop (k : Platform) (events : List (EventType × Nat)) (s : State) :
    State × List Action :=
  if s.hw_info.model = Model.SOFTRF_MODEL_PRIME_MK2 ∧ s.hw_info.revision = 5 then
    (s, Action.button_check ::
          (events.map (fun e => handleEvent k ButtonRef.button_1 e.1 e.2)).flatten)
  else (s, [])

/-! ## The classification record and the operations after `ESP32_setup` -/

/-- The capability computed by `ESP32_setup`: model, revision, board and the
two remapped radio pins. -/
structure Capability where
  model : Model
  revision : Nat
  esp32_board : Board
  rst : Nat
  busy : Nat
  deriving DecidableEq, Repr

/-- The capability held by a state. -/
def capability (s : State) : Capability :=
  { model := s.hw_info.model, revision := s.hw_info.revision,
    esp32_board := s.esp32_board, rst := s.lmic_pins.rst, busy := s.lmic_pins.busy }

/-- The identity and probe results `ESP32_setup` classifies on. -/
structure Identity where
  psramFound : Bool
  flash_id : Nat
  chip_ver : Nat
  endTransmission_AXP202 : Nat
  endTransmission_AXP192 : Nat
  deriving DecidableEq, Repr

/-- The identity part of a setup environment. -/
def SetupEnv.identity (env : SetupEnv) : Identity :=
  { psramFound := env.psramFound, flash_id := env.flash_id, chip_ver := env.chip_ver,
    endTransmission_AXP202 := env.endTransmission_AXP202,
    endTransmission_AXP192 := env.endTransmission_AXP192 }

/-- The operations of the `ESP32_ops` table that run after `ESP32_setup` and
that the immutability claim lists, each with what it reads. -/
inductive TableOp
  | post_init
  | loop (env : LoopEnv)
  | Display_setup (env : DisplayEnv)
  | Battery_setup
  | Baro_setup (env : BaroEnv)
  | Button_setup
  | Button_loop (events : List (EventType × Nat))
  | swSer_begin (baud : Nat)

/-- State after one table operation. -/
def TableOp.run (k : Platform) (op : TableOp) (s : State) : State :=
  match op with
  | TableOp.post_init => (ESP32_post_init k s).1
  | TableOp.loop env => (ESP32_loop k env s).1
  | TableOp.Display_setup env => (ESP32_Display_setup k env s).2.1
  | TableOp.Battery_setup => (ESP32_Battery_setup s).1
  | TableOp.Baro_setup env => (ESP32_Baro_setup k env s).2.1
  | TableOp.Button_setup => (ESP32_Button_setup s).1
  | TableOp.Button_loop events => (ESP32_Button_loop k events s).1
  | TableOp.swSer_begin baud => (ESP32_swSer_begin baud s).1

/-- The two staged probes that follow `ESP32_setup`. -/
inductive ProbeStage
  | Display_setup (env : DisplayEnv)
  | Baro_setup (env : BaroEnv)

/-- State after one staged probe. -/
def ProbeStage.run (k : Platform) (op : ProbeStage) (s : State) : State :=
  match op with
  | ProbeStage.Display_setup env => (ESP32_Display_setup k env s).2.1
  | ProbeStage.Baro_setup env => (ESP32_Baro_setup k env s).2.1

/-- State after a sequence of staged probes, first element first. -/
def runStages (k : Platform) (ops : List ProbeStage) (s : State) : State :=
  ops.foldl (fun st op => op.run k st) s

/-- A revision change allowed by staged refinement: none, or `PRIME_MK2` 2 to 5
with the radio reset pin connected, or `STANDALONE` to 16 or 11 on an
acknowledgement of the TTGO OLED. -/
def refines (op : ProbeStage) (before after : State) : Prop :=
  after.hw_info.revision = before.hw_info.revision ∨
  (∃ env, op = ProbeStage.Baro_setup env ∧ env.RF_SX12XX_RST_is_connected = true ∧
    before.hw_info.model = Model.SOFTRF_MODEL_PRIME_MK2 ∧
    before.hw_info.revision = 2 ∧ after.hw_info.revision = 5) ∨
  (∃ env, op = ProbeStage.Display_setup env ∧ env.Wire_endTransmission = 0 ∧
    before.hw_info.model = Model.SOFTRF_MODEL_STANDALONE ∧
    (after.hw_info.revision = 16 ∨ after.hw_info.revision = 11))

/-- Identity of a T-Beam: PSRAM found, flash `WINBOND_NEX_W25Q32_V`, and the
AXP192 acknowledging or not according to `ack`. -/
def tbeamEnv (k : Platform) (ack : Bool) : SetupEnv :=
  { efuse_ret := k.ESP_OK, efuse_mac := 0, getEfuseMac := 0x0000A1B2C3D4E5F6,
    psramFound := true, flash_id := k.flash_W25Q32_V, chip_ver := 1,
    endTransmission_AXP202 := 2,
    endTransmission_AXP192 := if ack then 0 else 2 }

/-- Identity of a board without PSRAM whose package fuse field is `chip_ver`;
no PMU answers. -/
def noPsramEnv (k : Platform) (chip_ver : Nat) : SetupEnv :=
  { efuse_ret := k.ESP_OK, efuse_mac := 0, getEfuseMac := 0x0000A1B2C3D4E5F6,
    psramFound := false, flash_id := k.MakeFlashId 0xC8 0x4016, chip_ver := chip_ver,
    endTransmission_AXP202 := 2, endTransmission_AXP192 := 2 }

/-- Identity of a PSRAM board whose flash is a GigaDevice GD25Q32 (vendor
0xC8, device 0x4016), which is none of the four case labels; no PMU answers. -/
def unknownFlashEnv (k : Platform) : SetupEnv :=
  { efuse_ret := k.ESP_OK, efuse_mac := 0, getEfuseMac := 0x0000A1B2C3D4E5F6,
    psramFound := true, flash_id := k.MakeFlashId 0xC8 0x4016, chip_ver := 1,
    endTransmission_AXP202 := 2, endTransmission_AXP192 := 2 }

/-- Identity of a TTGO T3: no PSRAM, PICO-D4 package; no PMU answers. -/
def t3Env (k : Platform) : SetupEnv :=
  noPsramEnv k k.EFUSE_RD_CHIP_VER_PKG_ESP32PICOD4

/-- Probe results of `ESP32_Display_setup` with the TTGO OLED acknowledging on
`Wire` and the radio reset pin connected. -/
def oledAckEnv : DisplayEnv :=
  { Wire_endTransmission := 0, Wire1_endTransmission := 2,
    RF_SX12XX_RST_is_connected := true }

/-- A T3 after a first `ESP32_setup` from boot followed by
`ESP32_Display_setup` with the OLED acknowledging. -/
def t3AfterDisplay : State :=
  (ESP32_Display_setup ttgoPlatform oledAckEnv
    (ESP32_setup ttgoPlatform (t3Env ttgoPlatform)
      (bootState ttgoPlatform sampleSettings)).1).2.1

/-- A T-Beam after `ESP32_setup` from boot whose AXP192 did not acknowledge:
`PRIME_MK2`, revision 2. -/
def tbeamNoPmu : State :=
  (ESP32_setup ttgoPlatform (tbeamEnv ttgoPlatform false)
    (bootState ttgoPlatform sampleSettings)).1

/-- A T-Beam after `ESP32_setup` from boot whose AXP192 acknowledged:
`PRIME_MK2`, revision 8. -/
def tbeamPmu : State :=
  (ESP32_setup ttgoPlatform (tbeamEnv ttgoPlatform true)
    (bootState ttgoPlatform sampleSettings)).1

/-- Inputs of `ESP32_Baro_setup` with the radio reset pin connected and a
barometer answering on the first bus. -/
def rstConnectedEnv : BaroEnv :=
  { RF_SX12XX_RST_is_connected := true, Baro_probe_Wire := true, Baro_probe_Wire1 := false }

/-- The PMU T-Beam with a PMU interrupt pending. -/
def tbeamPmuPending : State :=
  ESP32_PMU_Interrupt_handler tbeamPmu

/-- A loop iteration in which the PMU reports a short press only. -/
def shortPressEnv (k : Platform) : LoopEnv :=
  { readIRQ := k.AXP_PASS, isPEKLongtPressIRQ := false, isPEKShortPressIRQ := true,
    isTimeToBattery := false, battery_above_threshold := true }

/-- A loop iteration in which the PMU reports a long press only. -/
def longPressEnv (k : Platform) : LoopEnv :=
  { readIRQ := k.AXP_PASS, isPEKLongtPressIRQ := true, isPEKShortPressIRQ := false,
    isTimeToBattery := false, battery_above_threshold := true }

/-- The schedule in which the PMU interrupt fires once, after the loop has
read `PMU_Irq` and before it writes `false`. -/
def irqBetweenReadAndClear : IrqSchedule :=
  { before_read := false, between_read_and_clear := true, after_clear := false }

/-! ## `ESP32_fini` -/

/-- What `ESP32_fini` reads: the return value of the `i`-th call of
`axp.setSleep()` (counted from 0). -/
structure FiniEnv where
  /-- return value of the `i`-th call of `axp.setSleep()` -/
  setSleep : Nat → Int

/-- The `do { ret = axp.setSleep(); delay(500); } while (ret != AXP_PASS);`
loop of lines 379-384, started at call number `i`. The C loop has no exit other
than `AXP_PASS`, so the embedding takes a fuel: `none` means that the loop is
still running after `fuel` rounds. -/
def fini_poll (k : Platform) (setSleep : Nat → Int) : Nat → Nat → Option (List Action)
  | 0, _ => none
  | fuel + 1, i =>
    if setSleep i ≠ k.AXP_PASS then
      (fini_poll k setSleep fuel (i + 1)).map
        (fun rest => Action.axp_setSleep :: Action.delay 500 :: rest)
    else some [Action.axp_setSleep, Action.delay 500]

/-- Lines 413-429 of `ESP32_fini`: what the `PMK2_SLEEP_MODE` variant does
after the settle delay. -/
def fini_sleep_mode (k : Platform) : List Action :=
  if k.PMK2_SLEEP_MODE = 1 then
    [Action.esp_sleep_enable_ext1_wakeup PmuIrqPin.SOC_GPIO_PIN_TBEAM_V08_PMU_IRQ]
  else if k.PMK2_SLEEP_MODE = 2 then
    [Action.axp_setPowerOutPut Rail.AXP192_DCDC3 false]
  else [Action.axp_shutdown]

/-- Lines 358-430 of `ESP32_fini`: the board-specific part. -/
def fini_board (k : Platform) (env : FiniEnv) (fuel : Nat) (s : State) :
    Option (List Action) :=
  if s.hw_info.model = Model.SOFTRF_MODEL_SKYWATCH then
    some [Action.axp_setChgLEDMode LedMode.AXP20X_LED_OFF,
          Action.axp_setPowerOutPut Rail.AXP202_LDO2 false,
          Action.axp_setPowerOutPut Rail.AXP202_LDO4 false,
          Action.axp_setPowerOutPut Rail.AXP202_LDO3 false,
          Action.delay 20,
          Action.esp_sleep_enable_ext1_wakeup PmuIrqPin.SOC_GPIO_PIN_TWATCH_PMU_IRQ]
  else if s.hw_info.model = Model.SOFTRF_MODEL_PRIME_MK2 ∧ s.hw_info.revision = 8 then
    let poll := if k.PMK2_SLEEP_MODE = 2 then fini_poll k env.setSleep fuel 0 else some []
    poll.map (fun p =>
      [Action.axp_setChgLEDMode LedMode.AXP20X_LED_OFF] ++ p ++
      [Action.axp_setPowerOutPut Rail.AXP192_LDO2 false,
       Action.axp_setPowerOutPut Rail.AXP192_LDO3 false,
       Action.axp_setPowerOutPut Rail.AXP192_DCDC2 false] ++
      (if s.u8x8 = none then [Action.axp_setPowerOutPut Rail.AXP192_DCDC1 false] else []) ++
      [Action.axp_setPowerOutPut Rail.AXP192_EXTEN false, Action.delay 20] ++
      fini_sleep_mode k)
  else some []

/-- Embedding of `ESP32_fini` (lines 351-433). The parameter `reason` is not
read by the source. The result is `none` when the `setSleep` poll is still
running after `fuel` rounds; no global is written. -/
def ESP32_fini (k : Platform) (env : FiniEnv) (fuel : Nat) (_reason : ShutdownReason)
    (s : State) : Option (State × List Action) :=
  (fini_board k env fuel s).map (fun board =>
    (s, [Action.SPI_end, Action.esp_wifi_stop, Action.esp_bt_controller_disable] ++ board ++
        [Action.esp_deep_sleep_start]))

/-- The actions up to and including the first 20 ms settle delay. -/
def upto_settle : List Action → List Action
  | [] => []
  | a :: rest => if a = Action.delay 20 then [a] else a :: upto_settle rest

/-- The steps the rail power-down consists of: charge LED mode, power output
switches and the 20 ms settle delay. -/
def is_power_down_step : Action → Bool
  | Action.axp_setChgLEDMode _ => true
  | Action.axp_setPowerOutPut _ _ => true
  | Action.delay ms => ms = 20
  | _ => false

/-- The rail power-down order of a trace: its power-down steps, in order, up
to and including the settle delay. -/
def power_down_order (acts : List Action) : List Action :=
  (upto_settle acts).filter is_power_down_step

/-! ## `ESP32_getChipId` -/

/-- Byte `i` of `efuse_mac`, the little-endian view of `chipmacid`. -/
def efuse_mac (s : State) (i : Nat) : Nat :=
  (s.chipmacid / 2 ^ (8 * i)) % 256

/-- Lines 443-444 of `ESP32_getChipId`: the initial value of `id`. Each
operand is a byte widened to `uint32_t`, so no shift leaves 32 bits. -/
def chip_id_of_mac (s : State) : Nat :=
  efuse_mac s 5 ||| (efuse_mac s 4 <<< 8) ||| (efuse_mac s 3 <<< 16) |||
    (efuse_mac s 2 <<< 24)

/-- Embedding of `ESP32_getChipId` (lines 440-455) on `uint32_t`. -/
def ESP32_getChipId (k : Platform) (s : State) : Nat :=
  match k.SOFTRF_ADDRESS with
  | some addr => addr &&& 0xFFFFFFFF
  | none =>
    let id := chip_id_of_mac s
    if (id &&& 0x00FFFFFF) ≥ 0xDD0000 ∧ (id &&& 0x00FFFFFF) ≤ 0xDFFFFF then
      (id + 0x100000) % 2 ^ 32
    else id

/-! ## `ESP32_WiFi_set_param` -/

/-- The table `ESP32_dBm_to_power_level` of lines 589-611. -/
def ESP32_dBm_to_power_level : List Int :=
  [8, 8, 8, 8, 8, 20, 20, 28, 28, 34, 34, 44, 44, 52, 52, 60, 60, 68, 74, 76, 78]

/-- Values of the parameter selector `ndx` of `ESP32_WiFi_set_param`. -/
inductive WifiParam
  | WIFI_PARAM_TX_POWER
  | WIFI_PARAM_DHCP_LEASE_TIME
  | other (n : Nat)
  deriving DecidableEq, Repr

/-- Lines 620-626: the value of `value` when the table is indexed. -/
def tx_power_index (value : Int) : Int :=
  let value1 := if value > 20 then 20 else value
  let value2 := if value1 < 0 then 0 else value1
  value2

/-- The table element at a C index; `none` outside the 21 entries. -/
def dBm_to_power_level_at (i : Int) : Option Int :=
  if 0 ≤ i then ESP32_dBm_to_power_level[i.toNat]? else none

/-- Embedding of `ESP32_WiFi_set_param` (lines 613-639). `none` stands for an
access outside the table. -/
def ESP32_WiFi_set_param (ndx : WifiParam) (value : Int) : Option (List Action) :=
  let lt := ((value * 60) % 2 ^ 32).toNat
  match ndx with
  | WifiParam.WIFI_PARAM_TX_POWER =>
    (dBm_to_power_level_at (tx_power_index value)).map
      (fun level => [Action.esp_wifi_set_max_tx_power level])
  | WifiParam.WIFI_PARAM_DHCP_LEASE_TIME =>
    some [Action.tcpip_adapter_dhcps_option_lease_time lt]
  | WifiParam.other _ => some []

/-! ## Further concrete instances -/

/-- Probe results of `ESP32_Display_setup` with no acknowledgement on either
bus. -/
def noAckEnv : DisplayEnv :=
  { Wire_endTransmission := 2, Wire1_endTransmission := 2,
    RF_SX12XX_RST_is_connected := false }

/-- Identity of a T-Watch: PSRAM found, flash `WINBOND_NEX_W25Q128_V`, and the
AXP202 acknowledging or not according to `ack`. -/
def twatchEnv (k : Platform) (ack : Bool) : SetupEnv :=
  { efuse_ret := k.ESP_OK, efuse_mac := 0, getEfuseMac := 0x0000A1B2C3D4E5F6,
    psramFound := true, flash_id := k.flash_W25Q128_V, chip_ver := 1,
    endTransmission_AXP202 := if ack then 0 else 2,
    endTransmission_AXP192 := 2 }

/-- A T-Watch after `ESP32_setup` from boot, its AXP202 acknowledging. -/
def twatch : State :=
  (ESP32_setup ttgoPlatform (twatchEnv ttgoPlatform true)
    (bootState ttgoPlatform sampleSettings)).1

/-- The PMU T-Beam after `ESP32_Display_setup` found the TTGO OLED. -/
def tbeamPmuOled : State :=
  (ESP32_Display_setup ttgoPlatform oledAckEnv tbeamPmu).2.1

/-- The platform built with `PMK2_SLEEP_MODE` 2. -/
def sleepMode2Platform : Platform :=
  { ttgoPlatform with PMK2_SLEEP_MODE := 2 }

/-- A PMU whose `setSleep` never returns `AXP_PASS`. -/
def setSleepFails : FiniEnv :=
  { setSleep := fun _ => 1 }

/-- A PMU whose `setSleep` returns `AXP_PASS` on its third call. -/
def setSleepThird : FiniEnv :=
  { setSleep := fun i => if i < 2 then 1 else 0 }

/-- Settings with all three outputs on USB. -/
def usbSettings : Settings :=
  { nmea_out := NmeaOut.NMEA_USB, gdl90 := Gdl90Out.GDL90_USB, d1090 := D1090Out.D1090_USB }

/-- An environment of `ESP32_setup` whose custom MAC read succeeds with the
MAC bytes `24:6F:28:DD:12:34` (little-endian value). -/
def customMacEnv (k : Platform) : SetupEnv :=
  { efuse_ret := k.ESP_OK, efuse_mac := 0x3412DD286F24, getEfuseMac := 0x0000A1B2C3D4E5F6,
    psramFound := false, flash_id := 0, chip_ver := 1,
    endTransmission_AXP202 := 2, endTransmission_AXP192 := 2 }

/-- A state whose `efuse_mac` holds the custom MAC `24:6F:28:DD:12:34`. -/
def customMacState : State :=
  (ESP32_setup ttgoPlatform (customMacEnv ttgoPlatform)
    (bootState ttgoPlatform sampleSettings)).1

/-! ## Theorems -/

/-! ### Helper lemmas on `ESP32_setup` -/

theorem Platform.labels_ne (k : Platform) :
    k.flash_W25Q128_V ≠ k.flash_GD25LQ32 ∧
    k.flash_W25Q32_V ≠ k.flash_GD25LQ32 ∧
    k.flash_W25Q32_V ≠ k.flash_W25Q128_V ∧
    k.flash_BY25Q32AL ≠ k.flash_GD25LQ32 ∧
    k.flash_BY25Q32AL ≠ k.flash_W25Q128_V := by
  have h := k.case_labels_distinct
  simp only [List.nodup_cons, List.mem_cons, List.mem_singleton, not_or] at h
  obtain ⟨⟨h1, h2, h3⟩, ⟨h4, h5⟩, _⟩ := h
  unfold Platform.flash_W25Q128_V Platform.flash_GD25LQ32 Platform.flash_W25Q32_V
    Platform.flash_BY25Q32AL
  exact ⟨Ne.symm h1, Ne.symm h2, Ne.symm h4, Ne.symm h3.1, Ne.symm h5.1⟩

theorem setup_identity_hw_info (k : Platform) (env : SetupEnv) (s : State) :
    (setup_identity k env s).hw_info = s.hw_info ∧
    (setup_identity k env s).esp32_board = s.esp32_board ∧
    (setup_identity k env s).lmic_pins = s.lmic_pins := by
  unfold setup_identity
  cases k.SOFTRF_ADDRESS with
  | some a => exact ⟨rfl, rfl, rfl⟩
  | none =>
    dsimp only
    split_ifs <;> exact ⟨rfl, rfl, rfl⟩

theorem capability_setup_identity (k : Platform) (env : SetupEnv) (s : State) :
    capability (setup_identity k env s) = capability s := by
  obtain ⟨h1, h2, h3⟩ := setup_identity_hw_info k env s
  simp only [capability, h1, h2, h3]

theorem capability_setup_classify (k : Platform) (env1 env2 : SetupEnv) (s1 s2 : State)
    (hid : env1.identity = env2.identity) (hcap : capability s1 = capability s2) :
    capability (setup_classify k env1 s1) = capability (setup_classify k env2 s2) := by
  simp only [SetupEnv.identity, Identity.mk.injEq] at hid
  obtain ⟨e1, e2, e3, _, _⟩ := hid
  simp only [capability, Capability.mk.injEq] at hcap
  obtain ⟨c1, c2, c3, c4, c5⟩ := hcap
  simp only [setup_classify, capability, ← e1, ← e2, ← e3]
  split_ifs <;> simp [c1, c2, c3, c4, c5]

theorem capability_setup_pmu (k : Platform) (env1 env2 : SetupEnv) (s1 s2 : State)
    (hid : env1.identity = env2.identity) (hcap : capability s1 = capability s2) :
    capability (setup_pmu k env1 s1).1 = capability (setup_pmu k env2 s2).1 := by
  simp only [SetupEnv.identity, Identity.mk.injEq] at hid
  obtain ⟨_, _, _, e4, e5⟩ := hid
  simp only [capability, Capability.mk.injEq] at hcap
  obtain ⟨c1, c2, c3, c4, c5⟩ := hcap
  simp only [setup_pmu, capability, ← e4, ← e5, ← c1]
  split_ifs <;> simp [c1, c2, c3, c4, c5]

theorem model_setup_pmu (k : Platform) (env : SetupEnv) (s : State) :
    (setup_pmu k env s).1.hw_info.model = s.hw_info.model := by
  simp only [setup_pmu]
  split_ifs <;> rfl

/-! ### Classification (C1 - C4) -/

/-- C1: when PSRAM is found and the flash id is `WINBOND_NEX_W25Q32_V` or
`BOYA_BY25Q32AL`, `ESP32_setup` yields model `SOFTRF_MODEL_PRIME_MK2` and board
`ESP32_TTGO_T_BEAM`; the revision is 8 exactly when the probe of
`AXP192_SLAVE_ADDRESS` on `Wire1` is acknowledged (`endTransmission() == 0`) and
is 2 otherwise. -/
theorem C1_prime_mk2_revision (k : Platform) (env : SetupEnv) (s : State)
    (hpsram : env.psramFound = true)
    (hflash : env.flash_id = k.flash_W25Q32_V ∨ env.flash_id = k.flash_BY25Q32AL) :
    (ESP32_setup k env s).1.hw_info.model = Model.SOFTRF_MODEL_PRIME_MK2 ∧
    (ESP32_setup k env s).1.esp32_board = Board.ESP32_TTGO_T_BEAM ∧
    ((ESP32_setup k env s).1.hw_info.revision = 8 ↔ env.endTransmission_AXP192 = 0) ∧
    (env.endTransmission_AXP192 ≠ 0 → (ESP32_setup k env s).1.hw_info.revision = 2) := by
  obtain ⟨_, h2, h3, h4, h5⟩ := k.labels_ne
  have hGD : env.flash_id ≠ k.flash_GD25LQ32 := by
    rcases hflash with h | h <;> rw [h] <;> assumption
  have hW : env.flash_id ≠ k.flash_W25Q128_V := by
    rcases hflash with h | h <;> rw [h] <;> assumption
  simp only [ESP32_setup, setup_pmu, setup_classify, hpsram, if_true, if_neg hGD, if_neg hW]
  by_cases hack : env.endTransmission_AXP192 = 0 <;> simp [hack]

/-- Witness of C1: a T-Beam (PSRAM, flash `WINBOND_NEX_W25Q32_V`) whose AXP192
acknowledges is classified `PRIME_MK2`, `ESP32_TTGO_T_BEAM`, revision 8. -/
theorem C1_prime_mk2_revision_witness :
    (tbeamEnv ttgoPlatform true).psramFound = true ∧
    (tbeamEnv ttgoPlatform true).flash_id = ttgoPlatform.flash_W25Q32_V ∧
    (ESP32_setup ttgoPlatform (tbeamEnv ttgoPlatform true)
        (bootState ttgoPlatform sampleSettings)).1.hw_info.model
      = Model.SOFTRF_MODEL_PRIME_MK2 ∧
    (ESP32_setup ttgoPlatform (tbeamEnv ttgoPlatform true)
        (bootState ttgoPlatform sampleSettings)).1.esp32_board = Board.ESP32_TTGO_T_BEAM ∧
    (ESP32_setup ttgoPlatform (tbeamEnv ttgoPlatform true)
        (bootState ttgoPlatform sampleSettings)).1.hw_info.revision = 8 :=
  ⟨rfl, rfl,
   (C1_prime_mk2_revision ttgoPlatform (tbeamEnv ttgoPlatform true)
      (bootState ttgoPlatform sampleSettings) rfl (Or.inl rfl)).1,
   (C1_prime_mk2_revision ttgoPlatform (tbeamEnv ttgoPlatform true)
      (bootState ttgoPlatform sampleSettings) rfl (Or.inl rfl)).2.1,
   (C1_prime_mk2_revision ttgoPlatform (tbeamEnv ttgoPlatform true)
      (bootState ttgoPlatform sampleSettings) rfl (Or.inl rfl)).2.2.1.mpr rfl⟩

/-- C2: when no PSRAM is found and the state is that of a boot (`hw_info.model`
holds the default profile, which is neither PMU model), a package fuse field
whose low three bits equal `EFUSE_RD_CHIP_VER_PKG_ESP32PICOD4` makes
`ESP32_setup` select board `ESP32_TTGO_V2_OLED` and remap `lmic_pins.rst` to
`SOC_GPIO_PIN_TBEAM_RF_RST_V05` and `lmic_pins.busy` to
`SOC_GPIO_PIN_TBEAM_RF_BUSY_V08`; any other package id leaves the board and the
two pins as they were. -/
theorem C2_pico_d4_remap (k : Platform) (env : SetupEnv) (s : State)
    (hpsram : env.psramFound = false)
    (hboot : s.hw_info.model ≠ Model.SOFTRF_MODEL_SKYWATCH ∧
             s.hw_info.model ≠ Model.SOFTRF_MODEL_PRIME_MK2) :
    (env.chip_ver &&& 0x7 = k.EFUSE_RD_CHIP_VER_PKG_ESP32PICOD4 →
      (ESP32_setup k env s).1.esp32_board = Board.ESP32_TTGO_V2_OLED ∧
      (ESP32_setup k env s).1.lmic_pins.rst = k.SOC_GPIO_PIN_TBEAM_RF_RST_V05 ∧
      (ESP32_setup k env s).1.lmic_pins.busy = k.SOC_GPIO_PIN_TBEAM_RF_BUSY_V08) ∧
    (env.chip_ver &&& 0x7 ≠ k.EFUSE_RD_CHIP_VER_PKG_ESP32PICOD4 →
      (ESP32_setup k env s).1.esp32_board = s.esp32_board ∧
      (ESP32_setup k env s).1.lmic_pins.rst = s.lmic_pins.rst ∧
      (ESP32_setup k env s).1.lmic_pins.busy = s.lmic_pins.busy) := by
  obtain ⟨h1, h2, h3⟩ := setup_identity_hw_info k env s
  obtain ⟨hb1, hb2⟩ := hboot
  constructor
  · intro hpkg
    simp [ESP32_setup, setup_pmu, setup_classify, hpsram, hpkg, h1, hb1, hb2]
  · intro hpkg
    simp [ESP32_setup, setup_pmu, setup_classify, hpsram, hpkg, h1, h2, h3, hb1, hb2]

/-- Witness of C2: a PICO-D4 package (fuse field 5) at boot. -/
theorem C2_pico_d4_remap_witness :
    (ESP32_setup ttgoPlatform (noPsramEnv ttgoPlatform 5)
        (bootState ttgoPlatform sampleSettings)).1.esp32_board = Board.ESP32_TTGO_V2_OLED ∧
    (ESP32_setup ttgoPlatform (noPsramEnv ttgoPlatform 5)
        (bootState ttgoPlatform sampleSettings)).1.lmic_pins.rst = 23 ∧
    (ESP32_setup ttgoPlatform (noPsramEnv ttgoPlatform 5)
        (bootState ttgoPlatform sampleSettings)).1.lmic_pins.busy = 32 :=
  (C2_pico_d4_remap ttgoPlatform (noPsramEnv ttgoPlatform 5)
    (bootState ttgoPlatform sampleSettings) rfl ⟨by decide, by decide⟩).1 (by decide)

/-- Counterexample to C3 as stated: PSRAM is found, the flash id (GigaDevice
GD25Q32) is none of the four known ids, and the resulting model is
`SOFTRF_MODEL_PRIME_MK2`, not `SOFTRF_MODEL_STANDALONE`. -/
theorem C3_counterexample :
    (unknownFlashEnv ttgoPlatform).psramFound = true ∧
    (unknownFlashEnv ttgoPlatform).flash_id ≠ ttgoPlatform.flash_GD25LQ32 ∧
    (unknownFlashEnv ttgoPlatform).flash_id ≠ ttgoPlatform.flash_W25Q128_V ∧
    (unknownFlashEnv ttgoPlatform).flash_id ≠ ttgoPlatform.flash_W25Q32_V ∧
    (unknownFlashEnv ttgoPlatform).flash_id ≠ ttgoPlatform.flash_BY25Q32AL ∧
    (ESP32_setup ttgoPlatform (unknownFlashEnv ttgoPlatform)
        (bootState ttgoPlatform sampleSettings)).1.hw_info.model
      = Model.SOFTRF_MODEL_PRIME_MK2 ∧
    (ESP32_setup ttgoPlatform (unknownFlashEnv ttgoPlatform)
        (bootState ttgoPlatform sampleSettings)).1.hw_info.model
      ≠ Model.SOFTRF_MODEL_STANDALONE := by
  decide

/-- C3 as amended: `ESP32_setup` is a total function, so it always yields a
model. With PSRAM found the model is `SOFTRF_MODEL_STANDALONE` for flash id
GD25LQ32, `SOFTRF_MODEL_SKYWATCH` for W25Q128_V, and `SOFTRF_MODEL_PRIME_MK2`
for every other flash id, known or unknown (the `default` label); without
PSRAM the model is the one held before the call. -/
theorem C3_classification_default (k : Platform) (env : SetupEnv) (s : State) :
    (env.psramFound = true → env.flash_id = k.flash_GD25LQ32 →
      (ESP32_setup k env s).1.hw_info.model = Model.SOFTRF_MODEL_STANDALONE) ∧
    (env.psramFound = true → env.flash_id = k.flash_W25Q128_V →
      (ESP32_setup k env s).1.hw_info.model = Model.SOFTRF_MODEL_SKYWATCH) ∧
    (env.psramFound = true → env.flash_id ≠ k.flash_GD25LQ32 →
      env.flash_id ≠ k.flash_W25Q128_V →
      (ESP32_setup k env s).1.hw_info.model = Model.SOFTRF_MODEL_PRIME_MK2) ∧
    (env.psramFound = false →
      (ESP32_setup k env s).1.hw_info.model = s.hw_info.model) := by
  obtain ⟨h1, _, _⟩ := setup_identity_hw_info k env s
  obtain ⟨hne, _⟩ := k.labels_ne
  refine ⟨?_, ?_, ?_, ?_⟩
  · intro hp hf
    simp [ESP32_setup, setup_pmu, setup_classify, hp, hf]
  · intro hp hf
    simp only [ESP32_setup, setup_pmu, setup_classify, hp, hf, if_true, if_neg hne]
    by_cases hack : env.endTransmission_AXP202 = 0 <;> simp [hack]
  · intro hp hG hW
    simp only [ESP32_setup, setup_pmu, setup_classify, hp, if_true, if_neg hG, if_neg hW]
    by_cases hack : env.endTransmission_AXP192 = 0 <;> simp [hack]
  · intro hp
    simp only [ESP32_setup, setup_pmu, setup_classify, hp]
    split_ifs <;> simp_all

/-- Witness of C3 as amended: the unknown flash id falls to the `default`
label. -/
theorem C3_classification_default_witness :
    (ESP32_setup ttgoPlatform (unknownFlashEnv ttgoPlatform)
        (bootState ttgoPlatform sampleSettings)).1.hw_info.model
      = Model.SOFTRF_MODEL_PRIME_MK2 :=
  (C3_classification_default ttgoPlatform (unknownFlashEnv ttgoPlatform)
    (bootState ttgoPlatform sampleSettings)).2.2.1 rfl (by decide) (by decide)

/-- Counterexample to C4 as stated: the same identity and probe results (a T3
without PSRAM) give revision 0 when `ESP32_setup` runs from the boot state and
revision 16 when it runs again after `ESP32_Display_setup` has refined the
revision, so the capability depends on what `hw_info` held before the call. -/
theorem C4_counterexample :
    capability (ESP32_setup ttgoPlatform (t3Env ttgoPlatform)
        (bootState ttgoPlatform sampleSettings)).1 ≠
    capability (ESP32_setup ttgoPlatform (t3Env ttgoPlatform) t3AfterDisplay).1 ∧
    (capability (ESP32_setup ttgoPlatform (t3Env ttgoPlatform)
        (bootState ttgoPlatform sampleSettings)).1).revision = 0 ∧
    (capability (ESP32_setup ttgoPlatform (t3Env ttgoPlatform) t3AfterDisplay).1).revision
      = 16 := by
  decide

/-- C4 as amended: the capability computed by `ESP32_setup` is a function of
the identity, the I2C probe results and the capability held before the call
(nothing else of the state or of the environment enters). When PSRAM is found
the model depends on the identity alone, and when in addition the flash id is
neither GD25LQ32 nor W25Q128_V (the `PRIME_MK2` path) the whole capability
depends on the identity and the probe results alone. -/
theorem C4_capability_deterministic (k : Platform) (env1 env2 : SetupEnv) (s1 s2 : State)
    (hid : env1.identity = env2.identity) :
    (capability s1 = capability s2 →
      capability (ESP32_setup k env1 s1).1 = capability (ESP32_setup k env2 s2).1) ∧
    (env1.psramFound = true →
      (ESP32_setup k env1 s1).1.hw_info.model = (ESP32_setup k env2 s2).1.hw_info.model) ∧
    (env1.psramFound = true → env1.flash_id ≠ k.flash_GD25LQ32 →
      env1.flash_id ≠ k.flash_W25Q128_V →
      capability (ESP32_setup k env1 s1).1 = capability (ESP32_setup k env2 s2).1) := by
  have hi1 := capability_setup_identity k env1 s1
  have hi2 := capability_setup_identity k env2 s2
  refine ⟨?_, ?_, ?_⟩
  · intro hcap
    simp only [ESP32_setup]
    exact capability_setup_pmu k env1 env2 _ _ hid
      (capability_setup_classify k env1 env2 _ _ hid (by rw [hi1, hi2, hcap]))
  · intro hp
    have hp2 : env2.psramFound = true := by
      have := congrArg Identity.psramFound hid
      simp only [SetupEnv.identity] at this
      rw [← this]; exact hp
    have hf : env2.flash_id = env1.flash_id := by
      have := congrArg Identity.flash_id hid
      simp only [SetupEnv.identity] at this
      exact this.symm
    simp only [ESP32_setup]
    rw [model_setup_pmu, model_setup_pmu]
    simp only [setup_classify, hp, hp2, hf]
    split_ifs <;> rfl
  · intro hp hG hW
    have hp2 : env2.psramFound = true := by
      have := congrArg Identity.psramFound hid
      simp only [SetupEnv.identity] at this
      rw [← this]; exact hp
    have hf : env2.flash_id = env1.flash_id := by
      have := congrArg Identity.flash_id hid
      simp only [SetupEnv.identity] at this
      exact this.symm
    have ha : env2.endTransmission_AXP192 = env1.endTransmission_AXP192 := by
      have := congrArg Identity.endTransmission_AXP192 hid
      simp only [SetupEnv.identity] at this
      exact this.symm
    simp only [ESP32_setup, setup_pmu, setup_classify, capability, hp, hp2, hf, ha, if_true,
      if_neg hG, if_neg hW]
    by_cases hack : env1.endTransmission_AXP192 = 0 <;> simp [hack]

/-- Witness of C4 as amended: two T-Beam boots from different prior states
compute the same capability. -/
theorem C4_capability_deterministic_witness :
    capability (ESP32_setup ttgoPlatform (tbeamEnv ttgoPlatform true)
        (bootState ttgoPlatform sampleSettings)).1 =
    capability (ESP32_setup ttgoPlatform (tbeamEnv ttgoPlatform true) t3AfterDisplay).1 :=
  (C4_capability_deterministic ttgoPlatform (tbeamEnv ttgoPlatform true)
    (tbeamEnv ttgoPlatform true) (bootState ttgoPlatform sampleSettings) t3AfterDisplay
    rfl).2.2 rfl (by decide) (by decide)

/-! ### Later operations and staged refinement (C5, C6) -/

theorem display_setup_model (k : Platform) (env : DisplayEnv) (s : State) :
    (ESP32_Display_setup k env s).2.1.hw_info.model = s.hw_info.model := by
  simp only [ESP32_Display_setup, display_probe]
  split_ifs <;> rfl

theorem display_setup_revision (k : Platform) (env : DisplayEnv) (s : State) :
    (ESP32_Display_setup k env s).2.1.hw_info.revision = s.hw_info.revision ∨
    (env.Wire_endTransmission = 0 ∧ s.hw_info.model = Model.SOFTRF_MODEL_STANDALONE ∧
      ((ESP32_Display_setup k env s).2.1.hw_info.revision = 16 ∨
       (ESP32_Display_setup k env s).2.1.hw_info.revision = 11)) := by
  simp only [ESP32_Display_setup, display_probe]
  split_ifs <;> simp_all

theorem baro_setup_model (k : Platform) (env : BaroEnv) (s : State) :
    (ESP32_Baro_setup k env s).2.1.hw_info.model = s.hw_info.model ∧
    (ESP32_Baro_setup k env s).2.1.esp32_board = s.esp32_board := by
  simp only [ESP32_Baro_setup]
  split_ifs <;> exact ⟨rfl, rfl⟩

theorem baro_setup_revision (k : Platform) (env : BaroEnv) (s : State) :
    (ESP32_Baro_setup k env s).2.1.hw_info.revision = s.hw_info.revision ∨
    (env.RF_SX12XX_RST_is_connected = true ∧
      s.hw_info.model = Model.SOFTRF_MODEL_PRIME_MK2 ∧ s.hw_info.revision = 2 ∧
      (ESP32_Baro_setup k env s).2.1.hw_info.revision = 5) := by
  simp only [ESP32_Baro_setup]
  split_ifs <;> simp_all

theorem stage_model (k : Platform) (op : ProbeStage) (s : State) :
    (op.run k s).hw_info.model = s.hw_info.model := by
  cases op with
  | Display_setup env => exact display_setup_model k env s
  | Baro_setup env => exact (baro_setup_model k env s).1

theorem stage_refines (k : Platform) (op : ProbeStage) (s : State) :
    refines op s (op.run k s) := by
  cases op with
  | Display_setup env =>
    rcases display_setup_revision k env s with h | ⟨h1, h2, h3⟩
    · exact Or.inl h
    · exact Or.inr (Or.inr ⟨env, rfl, h1, h2, h3⟩)
  | Baro_setup env =>
    rcases baro_setup_revision k env s with h | ⟨h1, h2, h3, h4⟩
    · exact Or.inl h
    · exact Or.inr (Or.inl ⟨env, rfl, h1, h2, h3, h4⟩)

theorem stage_pmu_revision (k : Platform) (op : ProbeStage) (s : State)
    (hm : s.hw_info.model = Model.SOFTRF_MODEL_PRIME_MK2) (hr : s.hw_info.revision = 8) :
    (op.run k s).hw_info.revision = 8 := by
  rcases stage_refines k op s with h | ⟨_, _, _, _, h2, _⟩ | ⟨_, _, _, h1, _⟩
  · rw [h, hr]
  · rw [hr] at h2
    exact absurd h2 (by decide)
  · rw [hm] at h1
    exact absurd h1 (by decide)

theorem runStages_snoc (k : Platform) (pre : List ProbeStage) (op : ProbeStage) (s : State) :
    runStages k (pre ++ [op]) s = op.run k (runStages k pre s) := by
  simp [runStages, List.foldl_append]

theorem runStages_model (k : Platform) (ops : List ProbeStage) (s : State) :
    (runStages k ops s).hw_info.model = s.hw_info.model := by
  induction ops generalizing s with
  | nil => rfl
  | cons op rest ih =>
    show (runStages k rest (op.run k s)).hw_info.model = s.hw_info.model
    rw [ih, stage_model]

theorem runStages_pmu_revision (k : Platform) (ops : List ProbeStage) (s : State)
    (hm : s.hw_info.model = Model.SOFTRF_MODEL_PRIME_MK2) (hr : s.hw_info.revision = 8) :
    (runStages k ops s).hw_info.revision = 8 := by
  induction ops generalizing s with
  | nil => exact hr
  | cons op rest ih =>
    show (runStages k rest (op.run k s)).hw_info.revision = 8
    exact ih _ (by rw [stage_model, hm]) (stage_pmu_revision k op s hm hr)

/-- Counterexample to C5 as stated: on a T-Beam classified as `PRIME_MK2`
revision 2, `ESP32_Baro_setup` with the radio reset pin connected changes
`hw_info.revision` to 5. -/
theorem C5_counterexample :
    tbeamNoPmu.hw_info.revision = 2 ∧
    ((TableOp.Baro_setup rstConnectedEnv).run ttgoPlatform tbeamNoPmu).hw_info.revision = 5 ∧
    ((TableOp.Baro_setup rstConnectedEnv).run ttgoPlatform tbeamNoPmu).hw_info.revision ≠
      tbeamNoPmu.hw_info.revision := by
  decide

/-- C5 as amended: after `ESP32_setup`, no later operation of the table changes
`hw_info.model`; `ESP32_post_init`, `ESP32_loop`, `ESP32_Battery_setup`,
`ESP32_Button_setup`, `ESP32_Button_loop` and `ESP32_swSer_begin` change neither
`hw_info.revision` nor `esp32_board`; `ESP32_Baro_setup` leaves `esp32_board`
unchanged (it may change the revision), and only `ESP32_Display_setup` may
change both. -/
theorem C5_later_operations_frame (k : Platform) (op : TableOp) (s : State) :
    (op.run k s).hw_info.model = s.hw_info.model ∧
    ((∀ env, op ≠ TableOp.Display_setup env) →
      (op.run k s).esp32_board = s.esp32_board) ∧
    ((∀ env, op ≠ TableOp.Display_setup env) → (∀ env, op ≠ TableOp.Baro_setup env) →
      (op.run k s).hw_info.revision = s.hw_info.revision) := by
  cases op with
  | post_init => exact ⟨rfl, fun _ => rfl, fun _ _ => rfl⟩
  | loop env =>
    have h : (ESP32_loop k env s).1.hw_info = s.hw_info ∧
        (ESP32_loop k env s).1.esp32_board = s.esp32_board := by
      simp only [ESP32_loop, loop_clear, loop_read]
      split_ifs <;> exact ⟨rfl, rfl⟩
    simp only [TableOp.run]
    exact ⟨by rw [h.1], fun _ => h.2, fun _ _ => by rw [h.1]⟩
  | Display_setup env =>
    exact ⟨display_setup_model k env s, fun h => absurd rfl (h env),
      fun h => absurd rfl (h env)⟩
  | Battery_setup =>
    have h : (ESP32_Battery_setup s).1 = s := by
      simp only [ESP32_Battery_setup]
      split_ifs <;> rfl
    simp [TableOp.run, h]
  | Baro_setup env =>
    exact ⟨(baro_setup_model k env s).1, fun _ => (baro_setup_model k env s).2,
      fun _ h => absurd rfl (h env)⟩
  | Button_setup =>
    have h : (ESP32_Button_setup s).1 = s := by
      simp only [ESP32_Button_setup]
      split_ifs <;> rfl
    simp [TableOp.run, h]
  | Button_loop events =>
    have h : (ESP32_Button_loop k events s).1 = s := by
      simp only [ESP32_Button_loop]
      split_ifs <;> rfl
    simp [TableOp.run, h]
  | swSer_begin baud =>
    have h : (ESP32_swSer_begin baud s).1 = s := by
      simp only [ESP32_swSer_begin]
      split_ifs <;> rfl
    simp [TableOp.run, h]

/-- Witness of C5 as amended: `ESP32_swSer_begin` on the PMU-less T-Beam keeps
its board and revision. -/
theorem C5_later_operations_frame_witness :
    ((TableOp.swSer_begin 9600).run ttgoPlatform tbeamNoPmu).esp32_board
      = tbeamNoPmu.esp32_board ∧
    ((TableOp.swSer_begin 9600).run ttgoPlatform tbeamNoPmu).hw_info.revision
      = tbeamNoPmu.hw_info.revision :=
  ⟨(C5_later_operations_frame ttgoPlatform (TableOp.swSer_begin 9600) tbeamNoPmu).2.1
      (fun _ h => TableOp.noConfusion h),
   (C5_later_operations_frame ttgoPlatform (TableOp.swSer_begin 9600) tbeamNoPmu).2.2
      (fun _ h => TableOp.noConfusion h) (fun _ h => TableOp.noConfusion h)⟩

/-- C6: from every state produced by `ESP32_setup`, along every sequence of
`ESP32_Display_setup` and `ESP32_Baro_setup` calls with arbitrary probe
outcomes, `hw_info.model` never changes, a `PRIME_MK2` revision 8 (fixed by the
acknowledged PMU probe) never changes, and every step either keeps the
revision or refines an identity-only guess: `PRIME_MK2` 2 to 5 with the radio
reset pin connected, or `STANDALONE` to 16 or 11 when the TTGO OLED
acknowledges. -/
theorem C6_staged_refinement (k : Platform) (env : SetupEnv) (s : State)
    (ops : List ProbeStage) :
    (runStages k ops (ESP32_setup k env s).1).hw_info.model
      = (ESP32_setup k env s).1.hw_info.model ∧
    ((ESP32_setup k env s).1.hw_info.model = Model.SOFTRF_MODEL_PRIME_MK2 →
      (ESP32_setup k env s).1.hw_info.revision = 8 →
      (runStages k ops (ESP32_setup k env s).1).hw_info.revision = 8) ∧
    (∀ pre op post, ops = pre ++ op :: post →
      refines op (runStages k pre (ESP32_setup k env s).1)
        (runStages k (pre ++ [op]) (ESP32_setup k env s).1)) := by
  refine ⟨runStages_model k ops _, runStages_pmu_revision k ops _, ?_⟩
  intro pre op post _
  rw [runStages_snoc]
  exact stage_refines k op _

/-- Witness of C6: on the T-Beam whose AXP192 acknowledged, a display probe
followed by a barometer probe leaves revision 8 in place. -/
theorem C6_staged_refinement_witness :
    (runStages ttgoPlatform
      [ProbeStage.Display_setup oledAckEnv, ProbeStage.Baro_setup rstConnectedEnv]
      (ESP32_setup ttgoPlatform (tbeamEnv ttgoPlatform true)
        (bootState ttgoPlatform sampleSettings)).1).hw_info.revision = 8 :=
  (C6_staged_refinement ttgoPlatform (tbeamEnv ttgoPlatform true)
    (bootState ttgoPlatform sampleSettings)
    [ProbeStage.Display_setup oledAckEnv, ProbeStage.Baro_setup rstConnectedEnv]).2.1
    (by decide) (by decide)

/-! ### Interrupt flags and the control loop (C7 - C10) -/

theorem loop_keeps_hw_info (k : Platform) (env : LoopEnv) (s : State) :
    (ESP32_loop k env s).1.hw_info = s.hw_info := by
  simp only [ESP32_loop, loop_clear, loop_read]
  split_ifs <;> rfl

theorem loop_keeps_has_PMU (k : Platform) (env : LoopEnv) (s : State) (h : has_PMU s) :
    has_PMU (ESP32_loop k env s).1 := by
  unfold has_PMU at h ⊢
  rw [loop_keeps_hw_info]
  exact h

theorem loop_drains (k : Platform) (env : LoopEnv) (s : State) (h : has_PMU s) :
    (ESP32_loop k env s).1.PMU_Irq = false := by
  simp only [ESP32_loop, if_pos h, loop_clear, loop_read]
  by_cases hirq : s.PMU_Irq = true
  · simp [hirq]
  · rw [if_neg hirq]
    simpa using hirq

theorem loop_idle_actions (k : Platform) (env : LoopEnv) (s : State) (h : has_PMU s)
    (hirq : s.PMU_Irq = false) :
    (ESP32_loop k env s).2 = loop_tail env false false := by
  simp [ESP32_loop, if_pos h, loop_read, loop_service, hirq]

theorem loop_tail_idle (env : LoopEnv) (a : Action) (ha : a ∈ loop_tail env false false) :
    a = Action.axp_setChgLEDMode LedMode.AXP20X_LED_LOW_LEVEL ∨
    a = Action.axp_setChgLEDMode LedMode.AXP20X_LED_BLINK_1HZ := by
  simp only [loop_tail] at ha
  split_ifs at ha <;> simp_all

/-- With no interrupt firing, the interleaved loop is `ESP32_loop`. -/
theorem loop_preempted_none (k : Platform) (env : LoopEnv) (s : State) :
    ESP32_loop_preempted k env
      { before_read := false, between_read_and_clear := false, after_clear := false } s
      = ESP32_loop k env s := by
  simp [ESP32_loop_preempted, ESP32_loop, irq_when]

/-- C7: on a PMU board, after one `ESP32_loop` iteration `PMU_Irq` is false,
whatever `axp.readIRQ()` returned; a second iteration with no handler run in
between reads `is_irq == false` and performs no PMU IRQ read, no page advance
and no shutdown. -/
theorem C7_second_drain_observes_false (k : Platform) (env1 env2 : LoopEnv) (s : State)
    (hpmu : has_PMU s) :
    (ESP32_loop k env1 s).1.PMU_Irq = false ∧
    loop_read (ESP32_loop k env1 s).1 = false ∧
    Action.axp_readIRQ ∉ (ESP32_loop k env2 (ESP32_loop k env1 s).1).2 ∧
    Action.OLED_Next_Page ∉ (ESP32_loop k env2 (ESP32_loop k env1 s).1).2 ∧
    (∀ reason, Action.shutdown reason ∉ (ESP32_loop k env2 (ESP32_loop k env1 s).1).2) ∧
    (ESP32_loop k env2 (ESP32_loop k env1 s).1).1.PMU_Irq = false := by
  have h1 := loop_drains k env1 s hpmu
  have hp := loop_keeps_has_PMU k env1 s hpmu
  have h2 := loop_idle_actions k env2 _ hp h1
  refine ⟨h1, h1, ?_, ?_, ?_, loop_drains k env2 _ hp⟩
  · intro hin
    rw [h2] at hin
    rcases loop_tail_idle env2 _ hin with h | h <;> exact Action.noConfusion h
  · intro hin
    rw [h2] at hin
    rcases loop_tail_idle env2 _ hin with h | h <;> exact Action.noConfusion h
  · intro reason hin
    rw [h2] at hin
    rcases loop_tail_idle env2 _ hin with h | h <;> exact Action.noConfusion h

/-- Witness of C7: the PMU T-Beam with an interrupt pending, a long press
drained by the first iteration. -/
theorem C7_second_drain_observes_false_witness :
    (ESP32_loop ttgoPlatform (longPressEnv ttgoPlatform) tbeamPmuPending).1.PMU_Irq = false ∧
    Action.axp_readIRQ ∉
      (ESP32_loop ttgoPlatform (shortPressEnv ttgoPlatform)
        (ESP32_loop ttgoPlatform (longPressEnv ttgoPlatform) tbeamPmuPending).1).2 :=
  ⟨(C7_second_drain_observes_false ttgoPlatform (longPressEnv ttgoPlatform)
      (shortPressEnv ttgoPlatform) tbeamPmuPending (by decide)).1,
   (C7_second_drain_observes_false ttgoPlatform (longPressEnv ttgoPlatform)
      (shortPressEnv ttgoPlatform) tbeamPmuPending (by decide)).2.2.1⟩

/-- C8, the code at the failing interleaving: on the PMU T-Beam with an
interrupt pending, the loop reads `is_irq == true`, the handler then sets
`PMU_Irq` again (a second event), and the loop's second critical section writes
`false` over it. At the end of the iteration `PMU_Irq` is false, and the next
iteration reads `is_irq == false` and performs no PMU IRQ read: the second
event is lost. -/
theorem C8_irq_lost_between_read_and_clear :
    has_PMU tbeamPmuPending ∧
    loop_read tbeamPmuPending = true ∧
    (irq_when irqBetweenReadAndClear.between_read_and_clear tbeamPmuPending).PMU_Irq = true ∧
    (ESP32_loop_preempted ttgoPlatform (shortPressEnv ttgoPlatform)
      irqBetweenReadAndClear tbeamPmuPending).1.PMU_Irq = false ∧
    loop_read (ESP32_loop_preempted ttgoPlatform (shortPressEnv ttgoPlatform)
      irqBetweenReadAndClear tbeamPmuPending).1 = false ∧
    Action.axp_readIRQ ∉
      (ESP32_loop ttgoPlatform (longPressEnv ttgoPlatform)
        (ESP32_loop_preempted ttgoPlatform (shortPressEnv ttgoPlatform)
          irqBetweenReadAndClear tbeamPmuPending).1).2 := by
  decide

/-- C9: `ESP32_get_PPS_TimeMarker` leaves the state, hence `PPS_TimeMarker`,
unchanged; two consecutive reads return the same value; a read after a run of
`ESP32_GNSS_PPS_Interrupt_handler` returns the `millis()` value that run
stored, and after several runs the value of the most recent one. -/
theorem C9_pps_marker_read (s : State) (millis earlier : Nat) :
    (ESP32_get_PPS_TimeMarker s).2 = s ∧
    (ESP32_get_PPS_TimeMarker s).1 = s.PPS_TimeMarker ∧
    (ESP32_get_PPS_TimeMarker (ESP32_get_PPS_TimeMarker s).2).1
      = (ESP32_get_PPS_TimeMarker s).1 ∧
    (ESP32_get_PPS_TimeMarker (ESP32_GNSS_PPS_Interrupt_handler millis s)).1 = millis ∧
    (ESP32_get_PPS_TimeMarker
      (ESP32_GNSS_PPS_Interrupt_handler millis
        (ESP32_GNSS_PPS_Interrupt_handler earlier s))).1 = millis ∧
    (ESP32_get_PPS_TimeMarker
      (ESP32_get_PPS_TimeMarker (ESP32_GNSS_PPS_Interrupt_handler millis s)).2).1
      = millis :=
  ⟨rfl, rfl, rfl, rfl, rfl, rfl⟩

/-- C10: on a PMU board with `PMU_Irq` pending, one `ESP32_loop` iteration calls
`shutdown(SOFTRF_SHUTDOWN_BUTTON)` when the IRQ status read from the PMU
(`readIRQ()` passed) reports a long press; when it reports no long press the
iteration calls `shutdown` for no reason at all, and a short press is forwarded
as `OLED_Next_Page` (with OLED support compiled in). `handleEvent` calls
`shutdown` exactly for `kEventLongPressed` on `button_1`, and then with
`SOFTRF_SHUTDOWN_BUTTON`; never for any other event type or button. -/
theorem C10_only_long_press_shuts_down (k : Platform) (env : LoopEnv) (s : State)
    (hpmu : has_PMU s) (hirq : s.PMU_Irq = true) :
    (env.readIRQ = k.AXP_PASS → env.isPEKLongtPressIRQ = true →
      Action.shutdown ShutdownReason.SOFTRF_SHUTDOWN_BUTTON ∈ (ESP32_loop k env s).2) ∧
    (env.isPEKLongtPressIRQ = false →
      ∀ reason, Action.shutdown reason ∉ (ESP32_loop k env s).2) ∧
    (env.readIRQ = k.AXP_PASS → env.isPEKShortPressIRQ = true → k.USE_OLED = true →
      Action.OLED_Next_Page ∈ (ESP32_loop k env s).2) ∧
    (∀ button eventType buttonState reason,
      Action.shutdown reason ∈ handleEvent k button eventType buttonState ↔
        (reason = ShutdownReason.SOFTRF_SHUTDOWN_BUTTON ∧
         eventType = EventType.kEventLongPressed ∧ button = ButtonRef.button_1)) := by
  refine ⟨?_, ?_, ?_, ?_⟩
  · intro hpass hlong
    simp [ESP32_loop, if_pos hpmu, loop_read, loop_service, loop_tail, hirq, hpass, hlong]
  · intro hlong reason
    simp only [ESP32_loop, if_pos hpmu, loop_read, loop_service, loop_tail, hirq, hlong]
    split_ifs <;> simp_all
  · intro hpass hshort holed
    simp [ESP32_loop, if_pos hpmu, loop_read, loop_service, loop_tail, hirq, hpass, hshort,
      holed]
  · intro button eventType buttonState reason
    cases eventType <;> simp only [handleEvent] <;> (try split_ifs) <;> simp_all

/-- Witness of C10: a long press on the PMU T-Beam with an interrupt
pending. -/
theorem C10_only_long_press_shuts_down_witness :
    Action.shutdown ShutdownReason.SOFTRF_SHUTDOWN_BUTTON ∈
      (ESP32_loop ttgoPlatform (longPressEnv ttgoPlatform) tbeamPmuPending).2 :=
  (C10_only_long_press_shuts_down ttgoPlatform (longPressEnv ttgoPlatform) tbeamPmuPending
    (by decide) rfl).1 rfl rfl

/-! ### Display probing (C11) -/

/-- Counterexample to C11 as stated: on a T-Watch, `ESP32_Display_setup`
issues no probe at `SSD1306_OLED_I2C_ADDR` at all (so none is acknowledged),
yet it initialises the TFT and returns `DISPLAY_TFT_TTGO`. -/
theorem C11_counterexample :
    twatch.esp32_board = Board.ESP32_TTGO_T_WATCH ∧
    Action.Wire_probe Bus.Wire I2CAddr.SSD1306_OLED_I2C_ADDR ∉
      (ESP32_Display_setup ttgoPlatform noAckEnv twatch).2.2 ∧
    Action.Wire_probe Bus.Wire1 I2CAddr.SSD1306_OLED_I2C_ADDR ∉
      (ESP32_Display_setup ttgoPlatform noAckEnv twatch).2.2 ∧
    (ESP32_Display_setup ttgoPlatform noAckEnv twatch).1 = Display.DISPLAY_TFT_TTGO ∧
    (ESP32_Display_setup ttgoPlatform noAckEnv twatch).1 ≠ Display.DISPLAY_NONE ∧
    Action.tft_splash ∈ (ESP32_Display_setup ttgoPlatform noAckEnv twatch).2.2 := by
  decide

/-- C11 as amended: on every board other than `ESP32_TTGO_T_WATCH` and from
every prior state, if no probe at `SSD1306_OLED_I2C_ADDR` issued by
`ESP32_Display_setup` is acknowledged, the function returns `DISPLAY_NONE`,
leaves the whole state (so `u8x8` and `esp32_board`) unchanged, initialises no
TFT, and initialises an OLED only if `u8x8` already pointed to one before the
call. On `ESP32_TTGO_T_WATCH` no probe is issued, and with TFT support the TFT
is initialised and `DISPLAY_TFT_TTGO` returned. -/
theorem C11_no_ack_no_display (k : Platform) (env : DisplayEnv) (s : State) :
    (s.esp32_board ≠ Board.ESP32_TTGO_T_WATCH →
      (Action.Wire_probe Bus.Wire I2CAddr.SSD1306_OLED_I2C_ADDR ∈
          (ESP32_Display_setup k env s).2.2 → env.Wire_endTransmission ≠ 0) →
      (Action.Wire_probe Bus.Wire1 I2CAddr.SSD1306_OLED_I2C_ADDR ∈
          (ESP32_Display_setup k env s).2.2 → env.Wire1_endTransmission ≠ 0) →
      (ESP32_Display_setup k env s).1 = Display.DISPLAY_NONE ∧
      (ESP32_Display_setup k env s).2.1 = s ∧
      Action.tft_splash ∉ (ESP32_Display_setup k env s).2.2 ∧
      (∀ drv, Action.u8x8_splash drv ∈ (ESP32_Display_setup k env s).2.2 →
        s.u8x8 = some drv)) ∧
    (s.esp32_board = Board.ESP32_TTGO_T_WATCH →
      (∀ bus addr, Action.Wire_probe bus addr ∉ (ESP32_Display_setup k env s).2.2) ∧
      (k.USE_TFT = true →
        (ESP32_Display_setup k env s).1 = Display.DISPLAY_TFT_TTGO ∧
        Action.tft_splash ∈ (ESP32_Display_setup k env s).2.2)) := by
  constructor
  · intro hboard hW hW1
    simp only [ESP32_Display_setup, display_probe, if_pos hboard] at hW hW1 ⊢
    split_ifs at hW hW1 ⊢ <;> simp_all <;> (split <;> simp_all)
  · intro hboard
    simp only [ESP32_Display_setup, ESP32_SPI_begin, hboard]
    split_ifs <;> simp_all

/-- Witness of C11 as amended: the PMU-less T-Beam with no OLED answering. -/
theorem C11_no_ack_no_display_witness :
    (ESP32_Display_setup ttgoPlatform noAckEnv tbeamNoPmu).1 = Display.DISPLAY_NONE ∧
    (ESP32_Display_setup ttgoPlatform noAckEnv tbeamNoPmu).2.1 = tbeamNoPmu :=
  ⟨((C11_no_ack_no_display ttgoPlatform noAckEnv tbeamNoPmu).1 (by decide)
      (fun _ => by decide) (fun _ => by decide)).1,
   ((C11_no_ack_no_display ttgoPlatform noAckEnv tbeamNoPmu).1 (by decide)
      (fun _ => by decide) (fun _ => by decide)).2.1⟩

/-! ### Settings and identity (C15, C16) -/

/-- C15: `ESP32_post_init` replaces each of `nmea_out`, `gdl90`, `d1090` that
holds its USB mode by the UART mode and leaves every other value as it is;
afterwards none of the three is a USB mode, and a second `ESP32_post_init`
leaves the state unchanged. -/
theorem C15_post_init_normalizes (k : Platform) (s : State) :
    (ESP32_post_init k s).1.settings.nmea_out =
      (if s.settings.nmea_out = NmeaOut.NMEA_USB then NmeaOut.NMEA_UART
       else s.settings.nmea_out) ∧
    (ESP32_post_init k s).1.settings.gdl90 =
      (if s.settings.gdl90 = Gdl90Out.GDL90_USB then Gdl90Out.GDL90_UART
       else s.settings.gdl90) ∧
    (ESP32_post_init k s).1.settings.d1090 =
      (if s.settings.d1090 = D1090Out.D1090_USB then D1090Out.D1090_UART
       else s.settings.d1090) ∧
    (ESP32_post_init k s).1.settings.nmea_out ≠ NmeaOut.NMEA_USB ∧
    (ESP32_post_init k s).1.settings.gdl90 ≠ Gdl90Out.GDL90_USB ∧
    (ESP32_post_init k s).1.settings.d1090 ≠ D1090Out.D1090_USB ∧
    (ESP32_post_init k (ESP32_post_init k s).1).1 = (ESP32_post_init k s).1 := by
  simp only [ESP32_post_init]
  split_ifs <;> simp_all

/-- Witness of C15: all three outputs on USB become UART. -/
theorem C15_post_init_normalizes_witness :
    (ESP32_post_init ttgoPlatform (bootState ttgoPlatform usbSettings)).1.settings =
      { nmea_out := NmeaOut.NMEA_UART, gdl90 := Gdl90Out.GDL90_UART,
        d1090 := D1090Out.D1090_UART } ∧
    (ESP32_post_init ttgoPlatform
      (ESP32_post_init ttgoPlatform (bootState ttgoPlatform usbSettings)).1).1 =
      (ESP32_post_init ttgoPlatform (bootState ttgoPlatform usbSettings)).1 :=
  ⟨by decide,
   (C15_post_init_normalizes ttgoPlatform (bootState ttgoPlatform usbSettings)).2.2.2.2.2.2⟩

theorem setup_chipmacid (k : Platform) (env : SetupEnv) (s : State) :
    (ESP32_setup k env s).1.chipmacid = (setup_identity k env s).chipmacid := by
  simp only [ESP32_setup, setup_pmu, setup_classify]
  split_ifs <;> rfl

/-- C16: with `SOFTRF_ADDRESS` undefined, the identity part of `ESP32_setup`
always yields a unique id: when `esp_efuse_mac_get_custom` reports an error, or
succeeds with an all-zero MAC, `chipmacid` is `ESP.getEfuseMac()`; when it
succeeds with a non-zero MAC, the six bytes of `efuse_mac` are that MAC, and
`chipmacid` is exactly that MAC from the zero-initialised union of a boot (its
two high bytes are not written). -/
theorem C16_identity_fallback (k : Platform) (env : SetupEnv) (s : State)
    (haddr : k.SOFTRF_ADDRESS = none) (hmac : env.efuse_mac < 2 ^ 48)
    (hdef : env.getEfuseMac < 2 ^ 64) :
    (env.efuse_ret ≠ k.ESP_OK → (ESP32_setup k env s).1.chipmacid = env.getEfuseMac) ∧
    (env.efuse_ret = k.ESP_OK → env.efuse_mac = 0 →
      (ESP32_setup k env s).1.chipmacid = env.getEfuseMac) ∧
    (env.efuse_ret = k.ESP_OK → env.efuse_mac ≠ 0 →
      (ESP32_setup k env s).1.chipmacid % 2 ^ 48 = env.efuse_mac ∧
      (s.chipmacid < 2 ^ 48 → (ESP32_setup k env s).1.chipmacid = env.efuse_mac)) := by
  rw [setup_chipmacid]
  have hm : env.efuse_mac % 2 ^ 48 = env.efuse_mac := Nat.mod_eq_of_lt hmac
  have hd : env.getEfuseMac % 2 ^ 64 = env.getEfuseMac := Nat.mod_eq_of_lt hdef
  refine ⟨?_, ?_, ?_⟩
  · intro herr
    simp [setup_identity, haddr, herr, hd]
    omega
  · intro hok hz
    simp [setup_identity, haddr, hok, hz, hd]
    omega
  · intro hok hnz
    simp only [setup_identity, haddr, hok, hm, ne_eq, not_true_eq_false, if_false, if_neg hnz]
    constructor
    · rw [Nat.mul_add_mod_of_lt hmac]
    · intro hboot
      rw [Nat.div_eq_of_lt hboot]
      simp

/-- Witness of C16: a successful read of a non-zero custom MAC at boot. -/
theorem C16_identity_fallback_witness :
    ttgoPlatform.SOFTRF_ADDRESS = none ∧
    (ESP32_setup ttgoPlatform (customMacEnv ttgoPlatform)
      (bootState ttgoPlatform sampleSettings)).1.chipmacid = 0x3412DD286F24 :=
  ⟨rfl,
   ((C16_identity_fallback ttgoPlatform (customMacEnv ttgoPlatform)
      (bootState ttgoPlatform sampleSettings) rfl (by decide) (by decide)).2.2
      rfl (by decide)).2 (by decide)⟩

/-! ### Chip id (C17) -/

theorem or_shiftLeft_eq_add (x y n : Nat) (hx : x < 2 ^ n) :
    x ||| (y <<< n) = x + y * 2 ^ n := by
  rw [Nat.or_comm, Nat.shiftLeft_eq, Nat.mul_comm y, ← Nat.mul_add_lt_is_or hx, Nat.add_comm]

theorem and_low24 (x : Nat) : x &&& 0x00FFFFFF = x % 2 ^ 24 := by
  have h := Nat.and_pow_two_sub_one_eq_mod x 24
  simpa using h

theorem efuse_mac_lt (s : State) (i : Nat) : efuse_mac s i < 256 :=
  Nat.mod_lt _ (by decide)

theorem chip_id_of_mac_eq (s : State) :
    chip_id_of_mac s =
      efuse_mac s 5 + efuse_mac s 4 * 2 ^ 8 + efuse_mac s 3 * 2 ^ 16 +
        efuse_mac s 2 * 2 ^ 24 := by
  have h5 := efuse_mac_lt s 5
  have h4 := efuse_mac_lt s 4
  have h3 := efuse_mac_lt s 3
  unfold chip_id_of_mac
  rw [or_shiftLeft_eq_add _ _ 8 (by omega), or_shiftLeft_eq_add _ _ 16 (by omega),
    or_shiftLeft_eq_add _ _ 24 (by omega)]

/-- C17: with `SOFTRF_ADDRESS` undefined and for every content of `efuse_mac`,
the id starts as `mac[5] | mac[4]<<8 | mac[3]<<16 | mac[2]<<24`; when its low 24
bits lie in 0xDD0000..0xDFFFFF the function returns it plus 0x100000, whose low
24 bits lie in 0xED0000..0xEFFFFF and whose top byte is unchanged; otherwise it
returns it unchanged. The low 24 bits of the result are never in
0xDD0000..0xDFFFFF. -/
theorem C17_chip_id_avoids_flarm_range (k : Platform) (s : State)
    (haddr : k.SOFTRF_ADDRESS = none) :
    ¬ (0xDD0000 ≤ ESP32_getChipId k s % 2 ^ 24 ∧ ESP32_getChipId k s % 2 ^ 24 ≤ 0xDFFFFF) ∧
    ((0xDD0000 ≤ chip_id_of_mac s % 2 ^ 24 ∧ chip_id_of_mac s % 2 ^ 24 ≤ 0xDFFFFF) →
      ESP32_getChipId k s = chip_id_of_mac s + 0x100000 ∧
      0xED0000 ≤ ESP32_getChipId k s % 2 ^ 24 ∧ ESP32_getChipId k s % 2 ^ 24 ≤ 0xEFFFFF ∧
      ESP32_getChipId k s / 2 ^ 24 = chip_id_of_mac s / 2 ^ 24) ∧
    (¬ (0xDD0000 ≤ chip_id_of_mac s % 2 ^ 24 ∧ chip_id_of_mac s % 2 ^ 24 ≤ 0xDFFFFF) →
      ESP32_getChipId k s = chip_id_of_mac s) ∧
    chip_id_of_mac s =
      efuse_mac s 5 + efuse_mac s 4 * 2 ^ 8 + efuse_mac s 3 * 2 ^ 16 +
        efuse_mac s 2 * 2 ^ 24 ∧
    ESP32_getChipId k s < 2 ^ 32 := by
  have h5 := efuse_mac_lt s 5
  have h4 := efuse_mac_lt s 4
  have h3 := efuse_mac_lt s 3
  have h2 := efuse_mac_lt s 2
  have hid := chip_id_of_mac_eq s
  have hlt : chip_id_of_mac s < 2 ^ 32 := by omega
  simp only [ESP32_getChipId, haddr, and_low24, ge_iff_le]
  by_cases hr : 0xDD0000 ≤ chip_id_of_mac s % 2 ^ 24 ∧ chip_id_of_mac s % 2 ^ 24 ≤ 0xDFFFFF
  · rw [if_pos hr]
    refine ⟨?_, ?_, ?_, hid, ?_⟩
    · omega
    · intro _
      omega
    · intro hn
      exact absurd hr hn
    · omega
  · rw [if_neg hr]
    refine ⟨hr, ?_, ?_, hid, hlt⟩
    · intro hp
      exact absurd hp hr
    · intro _
      rfl

/-- Witness of C17: the MAC `24:6F:28:DD:12:34` gives the raw id 0x28DD1234,
inside the congested range, and the returned id 0x28ED1234. -/
theorem C17_chip_id_avoids_flarm_range_witness :
    ttgoPlatform.SOFTRF_ADDRESS = none ∧
    chip_id_of_mac customMacState = 0x28DD1234 ∧
    ESP32_getChipId ttgoPlatform customMacState = 0x28ED1234 :=
  ⟨rfl, by decide,
   by
    have h := ((C17_chip_id_avoids_flarm_range ttgoPlatform customMacState rfl).2.1
      (by decide)).1
    rw [h]
    decide⟩

/-! ### WiFi transmit power (C19) -/

theorem tx_power_index_range (value : Int) :
    0 ≤ tx_power_index value ∧ tx_power_index value ≤ 20 ∧
    tx_power_index value = min (max value 0) 20 := by
  simp only [tx_power_index]
  split_ifs <;> omega

theorem tx_power_index_mono (v1 v2 : Int) (h : v1 ≤ v2) :
    tx_power_index v1 ≤ tx_power_index v2 := by
  simp only [tx_power_index]
  split_ifs <;> omega

theorem dBm_table_mono :
    ∀ i j : Fin 21, i ≤ j →
      ESP32_dBm_to_power_level.get ⟨i.val, i.isLt⟩ ≤
        ESP32_dBm_to_power_level.get ⟨j.val, j.isLt⟩ := by
  decide

theorem dBm_to_power_level_at_eq (i : Int) (h0 : 0 ≤ i) (h20 : i ≤ 20) :
    dBm_to_power_level_at i =
      some (ESP32_dBm_to_power_level.get ⟨i.toNat, by
        have : ESP32_dBm_to_power_level.length = 21 := rfl
        omega⟩) := by
  have hlen : ESP32_dBm_to_power_level.length = 21 := rfl
  have hlt : i.toNat < ESP32_dBm_to_power_level.length := by omega
  simp only [dBm_to_power_level_at, if_pos h0]
  rw [List.getElem?_eq_getElem hlt]
  rfl

/-- C19: for every `value`, `ESP32_WiFi_set_param(WIFI_PARAM_TX_POWER, value)`
indexes the 21-entry table at `min(max(value, 0), 20)`, which lies within
`0..20`, so the access is inside the table and one
`esp_wifi_set_max_tx_power` call is made with that entry; the table is
non-decreasing, so a larger requested value never selects a lower power
level. -/
theorem C19_tx_power_in_bounds_monotone (value : Int) :
    ESP32_dBm_to_power_level.length = 21 ∧
    tx_power_index value = min (max value 0) 20 ∧
    0 ≤ tx_power_index value ∧
    (tx_power_index value).toNat < ESP32_dBm_to_power_level.length ∧
    (∃ level, dBm_to_power_level_at (tx_power_index value) = some level ∧
      ESP32_WiFi_set_param WifiParam.WIFI_PARAM_TX_POWER value =
        some [Action.esp_wifi_set_max_tx_power level]) ∧
    List.Pairwise (fun a b => a ≤ b) ESP32_dBm_to_power_level ∧
    (∀ other level1 level2, value ≤ other →
      dBm_to_power_level_at (tx_power_index value) = some level1 →
      dBm_to_power_level_at (tx_power_index other) = some level2 →
      level1 ≤ level2) := by
  obtain ⟨h0, h20, hmin⟩ := tx_power_index_range value
  have hlen : ESP32_dBm_to_power_level.length = 21 := rfl
  refine ⟨hlen, hmin, h0, by omega, ?_, by decide, ?_⟩
  · refine ⟨_, dBm_to_power_level_at_eq _ h0 h20, ?_⟩
    simp only [ESP32_WiFi_set_param, dBm_to_power_level_at_eq _ h0 h20, Option.map_some']
  · intro other level1 level2 hle h1 h2
    obtain ⟨g0, g20, _⟩ := tx_power_index_range other
    have hm := tx_power_index_mono value other hle
    rw [dBm_to_power_level_at_eq _ h0 h20] at h1
    rw [dBm_to_power_level_at_eq _ g0 g20] at h2
    cases h1
    cases h2
    exact dBm_table_mono ⟨(tx_power_index value).toNat, by omega⟩
      ⟨(tx_power_index other).toNat, by omega⟩ (by
        show (tx_power_index value).toNat ≤ (tx_power_index other).toNat
        omega)

/-! ### The PMU gate (C18) -/

theorem setup_pmu_gate (k : Platform) (env : SetupEnv) (s : State) :
    ((setup_pmu k env s).1.hw_info.model = Model.SOFTRF_MODEL_PRIME_MK2 →
      (setup_pmu k env s).1.hw_info.revision = 8 →
      env.endTransmission_AXP192 = 0 ∧
      Action.axp_begin I2CAddr.AXP192_SLAVE_ADDRESS ∈ (setup_pmu k env s).2) ∧
    ((setup_pmu k env s).1.hw_info.model = Model.SOFTRF_MODEL_SKYWATCH →
      (Action.axp_begin I2CAddr.AXP202_SLAVE_ADDRESS ∈ (setup_pmu k env s).2 ↔
        env.endTransmission_AXP202 = 0)) := by
  simp only [setup_pmu]
  split_ifs <;> simp_all

theorem setup_actions_mem (k : Platform) (env : SetupEnv) (s : State) (addr : I2CAddr) :
    Action.axp_begin addr ∈ (ESP32_setup k env s).2 ↔
      Action.axp_begin addr ∈
        (setup_pmu k env (setup_classify k env (setup_identity k env s))).2 := by
  simp only [ESP32_setup]
  split_ifs <;> simp

theorem stage_revision_8_back (k : Platform) (op : ProbeStage) (s : State)
    (hm : s.hw_info.model = Model.SOFTRF_MODEL_PRIME_MK2)
    (hr : (op.run k s).hw_info.revision = 8) : s.hw_info.revision = 8 := by
  rcases stage_refines k op s with h | ⟨_, _, _, _, _, h5⟩ | ⟨_, _, _, h1, _⟩
  · rw [← h, hr]
  · rw [hr] at h5
    exact absurd h5 (by decide)
  · rw [hm] at h1
    exact absurd h1 (by decide)

theorem runStages_revision_8_back (k : Platform) (ops : List ProbeStage) (s : State)
    (hm : s.hw_info.model = Model.SOFTRF_MODEL_PRIME_MK2)
    (hr : (runStages k ops s).hw_info.revision = 8) : s.hw_info.revision = 8 := by
  induction ops generalizing s with
  | nil => exact hr
  | cons op rest ih =>
    have hm1 : (op.run k s).hw_info.model = Model.SOFTRF_MODEL_PRIME_MK2 := by
      rw [stage_model, hm]
    exact stage_revision_8_back k op s hm (ih (op.run k s) hm1 hr)

/-- Counterexample to C18 as stated: a T-Watch (flash `WINBOND_NEX_W25Q128_V`)
whose AXP202 does not acknowledge the probe in `ESP32_setup` is classified
`SOFTRF_MODEL_SKYWATCH`, so the gate holds, although the probe was not
acknowledged and `axp.begin` was never called. -/
theorem C18_counterexample :
    has_PMU (ESP32_setup ttgoPlatform (twatchEnv ttgoPlatform false)
      (bootState ttgoPlatform sampleSettings)).1 ∧
    (twatchEnv ttgoPlatform false).endTransmission_AXP202 ≠ 0 ∧
    Action.axp_begin I2CAddr.AXP202_SLAVE_ADDRESS ∉
      (ESP32_setup ttgoPlatform (twatchEnv ttgoPlatform false)
        (bootState ttgoPlatform sampleSettings)).2 ∧
    Action.axp_begin I2CAddr.AXP192_SLAVE_ADDRESS ∉
      (ESP32_setup ttgoPlatform (twatchEnv ttgoPlatform false)
        (bootState ttgoPlatform sampleSettings)).2 := by
  decide

/-- C18 as amended: in every state reached from `ESP32_setup` through
`ESP32_Display_setup` and `ESP32_Baro_setup` calls, if the gate holds through
`PRIME_MK2` revision 8, the probe of `AXP192_SLAVE_ADDRESS` in `ESP32_setup` was
acknowledged and `axp.begin` was called; if it holds through
`SOFTRF_MODEL_SKYWATCH`, which rests on the flash identity alone, `axp.begin`
was called exactly when the probe of `AXP202_SLAVE_ADDRESS` was
acknowledged. -/
theorem C18_gate_implies_pmu_probed (k : Platform) (env : SetupEnv) (s : State)
    (ops : List ProbeStage) :
    ((runStages k ops (ESP32_setup k env s).1).hw_info.model
        = Model.SOFTRF_MODEL_PRIME_MK2 →
      (runStages k ops (ESP32_setup k env s).1).hw_info.revision = 8 →
      env.endTransmission_AXP192 = 0 ∧
      Action.axp_begin I2CAddr.AXP192_SLAVE_ADDRESS ∈ (ESP32_setup k env s).2) ∧
    ((runStages k ops (ESP32_setup k env s).1).hw_info.model
        = Model.SOFTRF_MODEL_SKYWATCH →
      (Action.axp_begin I2CAddr.AXP202_SLAVE_ADDRESS ∈ (ESP32_setup k env s).2 ↔
        env.endTransmission_AXP202 = 0)) := by
  have hst : (ESP32_setup k env s).1 =
      (setup_pmu k env (setup_classify k env (setup_identity k env s))).1 := rfl
  obtain ⟨g1, g2⟩ := setup_pmu_gate k env (setup_classify k env (setup_identity k env s))
  constructor
  · intro hm hr
    rw [runStages_model] at hm
    have hr0 := runStages_revision_8_back k ops _ hm hr
    rw [setup_actions_mem]
    rw [hst] at hm hr0
    exact g1 hm hr0
  · intro hm
    rw [runStages_model] at hm
    rw [setup_actions_mem]
    rw [hst] at hm
    exact g2 hm

/-- Witness of C18 as amended: the PMU T-Beam after a display and a barometer
probe. -/
theorem C18_gate_implies_pmu_probed_witness :
    (tbeamEnv ttgoPlatform true).endTransmission_AXP192 = 0 ∧
    Action.axp_begin I2CAddr.AXP192_SLAVE_ADDRESS ∈
      (ESP32_setup ttgoPlatform (tbeamEnv ttgoPlatform true)
        (bootState ttgoPlatform sampleSettings)).2 :=
  (C18_gate_implies_pmu_probed ttgoPlatform (tbeamEnv ttgoPlatform true)
    (bootState ttgoPlatform sampleSettings)
    [ProbeStage.Display_setup oledAckEnv, ProbeStage.Baro_setup rstConnectedEnv]).1
    (by decide) (by decide)

/-! ### Shutdown (C12 - C14) -/

/-- The calls of a poll that made `n` rounds. -/
theorem fini_poll_first_pass (k : Platform) (f : Nat → Int) :
    ∀ (n fuel i : Nat), (∀ j, j < n → f (i + j) ≠ k.AXP_PASS) →
      f (i + n) = k.AXP_PASS → n < fuel →
      fini_poll k f fuel i =
        some (List.replicate (n + 1) [Action.axp_setSleep, Action.delay 500]).flatten := by
  intro n
  induction n with
  | zero =>
    intro fuel i _ hpass hfuel
    obtain ⟨fuel1, rfl⟩ : ∃ m, fuel = m + 1 := ⟨fuel - 1, by omega⟩
    have hp : f i = k.AXP_PASS := by simpa using hpass
    simp [fini_poll, hp]
  | succ n ih =>
    intro fuel i hfail hpass hfuel
    obtain ⟨fuel1, rfl⟩ : ∃ m, fuel = m + 1 := ⟨fuel - 1, by omega⟩
    have h0 : f i ≠ k.AXP_PASS := by simpa using hfail 0 (by omega)
    have hrec := ih fuel1 (i + 1)
      (fun j hj => by
        have := hfail (j + 1) (by omega)
        rwa [show i + (j + 1) = i + 1 + j by omega] at this)
      (by rwa [show i + 1 + n = i + (n + 1) by omega])
      (by omega)
    simp only [fini_poll, h0, ne_eq, not_false_eq_true, if_true, hrec, Option.map_some']
    rw [List.replicate_succ (n := n + 1)]
    simp

theorem fini_poll_never (k : Platform) (f : Nat → Int) (hfail : ∀ j, f j ≠ k.AXP_PASS) :
    ∀ (fuel i : Nat), fini_poll k f fuel i = none := by
  intro fuel
  induction fuel with
  | zero => intro i; rfl
  | succ fuel ih =>
    intro i
    simp [fini_poll, hfail i, ih (i + 1)]

theorem fini_poll_shape (k : Platform) (f : Nat → Int) :
    ∀ (fuel i : Nat) (p : List Action), fini_poll k f fuel i = some p →
      ∀ a ∈ p, a = Action.axp_setSleep ∨ a = Action.delay 500 := by
  intro fuel
  induction fuel with
  | zero => intro i p h; simp [fini_poll] at h
  | succ fuel ih =>
    intro i p h a ha
    simp only [fini_poll] at h
    split_ifs at h with hc
    · cases hrec : fini_poll k f fuel (i + 1) with
      | none => simp [hrec] at h
      | some rest =>
        simp only [hrec, Option.map_some', Option.some.injEq] at h
        subst h
        simp only [List.mem_cons] at ha
        rcases ha with ha | ha | ha
        · exact Or.inl ha
        · exact Or.inr ha
        · exact ih (i + 1) rest hrec a ha
    · simp only [Option.some.injEq] at h
      subst h
      simp only [List.mem_cons, List.mem_singleton, List.not_mem_nil, or_false] at ha
      exact ha

theorem fini_poll_produces (k : Platform) (f : Nat → Int) :
    ∀ (fuel i : Nat), (∃ n, n < fuel ∧ f (i + n) = k.AXP_PASS) →
      ∃ p, fini_poll k f fuel i = some p := by
  intro fuel
  induction fuel with
  | zero => intro i ⟨n, hn, _⟩; omega
  | succ fuel ih =>
    intro i ⟨n, hn, hpass⟩
    simp only [fini_poll]
    split_ifs with hc
    · have hn0 : n ≠ 0 := by
        intro h0
        subst h0
        exact hc (by simpa using hpass)
      obtain ⟨p, hp⟩ := ih (i + 1) ⟨n - 1, by omega, by
        rwa [show i + 1 + (n - 1) = i + n by omega]⟩
      exact ⟨_, by rw [hp]; rfl⟩
    · exact ⟨_, rfl⟩

theorem upto_settle_poll (p rest : List Action)
    (hp : ∀ a ∈ p, a = Action.axp_setSleep ∨ a = Action.delay 500) :
    power_down_order (p ++ rest) = power_down_order rest := by
  induction p with
  | nil => rfl
  | cons a p ih =>
    have ha := hp a (List.mem_cons_self a p)
    have ih1 := ih (fun b hb => hp b (List.mem_cons_of_mem a hb))
    unfold power_down_order at ih1 ⊢
    rcases ha with ha | ha <;> subst ha <;>
      simp [upto_settle, is_power_down_step, ih1]

theorem power_down_order_skip (a : Action) (l : List Action)
    (h1 : a ≠ Action.delay 20) (h2 : is_power_down_step a = false) :
    power_down_order (a :: l) = power_down_order l := by
  simp [power_down_order, upto_settle, h1, h2]

theorem power_down_order_keep (a : Action) (l : List Action)
    (h1 : a ≠ Action.delay 20) (h2 : is_power_down_step a = true) :
    power_down_order (a :: l) = a :: power_down_order l := by
  simp [power_down_order, upto_settle, h1, h2]

theorem power_down_order_settle (l : List Action) :
    power_down_order (Action.delay 20 :: l) = [Action.delay 20] := by
  simp [power_down_order, upto_settle, is_power_down_step]

theorem fini_prime_trace (k : Platform) (env : FiniEnv) (fuel : Nat)
    (reason : ShutdownReason) (s : State)
    (hm : s.hw_info.model = Model.SOFTRF_MODEL_PRIME_MK2) (hr : s.hw_info.revision = 8)
    (p : List Action)
    (hp : (if k.PMK2_SLEEP_MODE = 2 then fini_poll k env.setSleep fuel 0 else some [])
            = some p) :
    ESP32_fini k env fuel reason s = some (s,
      [Action.SPI_end, Action.esp_wifi_stop, Action.esp_bt_controller_disable,
       Action.axp_setChgLEDMode LedMode.AXP20X_LED_OFF] ++ (p ++
      ([Action.axp_setPowerOutPut Rail.AXP192_LDO2 false,
        Action.axp_setPowerOutPut Rail.AXP192_LDO3 false,
        Action.axp_setPowerOutPut Rail.AXP192_DCDC2 false] ++
       ((if s.u8x8 = none then [Action.axp_setPowerOutPut Rail.AXP192_DCDC1 false] else []) ++
        ([Action.axp_setPowerOutPut Rail.AXP192_EXTEN false, Action.delay 20] ++
         (fini_sleep_mode k ++ [Action.esp_deep_sleep_start])))))) := by
  have hsky : s.hw_info.model ≠ Model.SOFTRF_MODEL_SKYWATCH := by
    rw [hm]; decide
  simp only [ESP32_fini, fini_board, if_neg hsky]
  simp [hm, hr, hp]

theorem fini_prime_order (p tail : List Action) (dcdc1 : List Action)
    (hp : ∀ a ∈ p, a = Action.axp_setSleep ∨ a = Action.delay 500)
    (hd : dcdc1 = [Action.axp_setPowerOutPut Rail.AXP192_DCDC1 false] ∨ dcdc1 = []) :
    power_down_order
      ([Action.SPI_end, Action.esp_wifi_stop, Action.esp_bt_controller_disable,
        Action.axp_setChgLEDMode LedMode.AXP20X_LED_OFF] ++ (p ++
      ([Action.axp_setPowerOutPut Rail.AXP192_LDO2 false,
        Action.axp_setPowerOutPut Rail.AXP192_LDO3 false,
        Action.axp_setPowerOutPut Rail.AXP192_DCDC2 false] ++
       (dcdc1 ++
        ([Action.axp_setPowerOutPut Rail.AXP192_EXTEN false, Action.delay 20] ++ tail))))) =
    [Action.axp_setChgLEDMode LedMode.AXP20X_LED_OFF,
     Action.axp_setPowerOutPut Rail.AXP192_LDO2 false,
     Action.axp_setPowerOutPut Rail.AXP192_LDO3 false,
     Action.axp_setPowerOutPut Rail.AXP192_DCDC2 false] ++ dcdc1 ++
    [Action.axp_setPowerOutPut Rail.AXP192_EXTEN false, Action.delay 20] := by
  simp only [List.cons_append, List.nil_append]
  rw [power_down_order_skip Action.SPI_end _ (by decide) rfl,
    power_down_order_skip Action.esp_wifi_stop _ (by decide) rfl,
    power_down_order_skip Action.esp_bt_controller_disable _ (by decide) rfl,
    power_down_order_keep (Action.axp_setChgLEDMode LedMode.AXP20X_LED_OFF) _ (by decide) rfl,
    upto_settle_poll p _ hp]
  rcases hd with hd | hd <;> subst hd <;>
    simp [power_down_order, upto_settle, is_power_down_step]

/-- Counterexample to C12 as stated: on the PMU T-Beam on which
`ESP32_Display_setup` found the TTGO OLED (`u8x8` is not NULL), the rail
power-down of `ESP32_fini` contains no `DCDC1` off step, so it is not the
sequence the claim gives for `PRIME_MK2` revision 8. -/
theorem C12_counterexample :
    tbeamPmuOled.hw_info.model = Model.SOFTRF_MODEL_PRIME_MK2 ∧
    tbeamPmuOled.hw_info.revision = 8 ∧
    (ESP32_fini ttgoPlatform setSleepFails 1 ShutdownReason.SOFTRF_SHUTDOWN_BUTTON
        tbeamPmuOled).map (fun r => power_down_order r.2) =
      some [Action.axp_setChgLEDMode LedMode.AXP20X_LED_OFF,
            Action.axp_setPowerOutPut Rail.AXP192_LDO2 false,
            Action.axp_setPowerOutPut Rail.AXP192_LDO3 false,
            Action.axp_setPowerOutPut Rail.AXP192_DCDC2 false,
            Action.axp_setPowerOutPut Rail.AXP192_EXTEN false,
            Action.delay 20] ∧
    (ESP32_fini ttgoPlatform setSleepFails 1 ShutdownReason.SOFTRF_SHUTDOWN_BUTTON
        tbeamPmuOled).map (fun r => power_down_order r.2) ≠
      some [Action.axp_setChgLEDMode LedMode.AXP20X_LED_OFF,
            Action.axp_setPowerOutPut Rail.AXP192_LDO2 false,
            Action.axp_setPowerOutPut Rail.AXP192_LDO3 false,
            Action.axp_setPowerOutPut Rail.AXP192_DCDC2 false,
            Action.axp_setPowerOutPut Rail.AXP192_DCDC1 false,
            Action.axp_setPowerOutPut Rail.AXP192_EXTEN false,
            Action.delay 20] := by
  decide

/-- C12 as amended: the rail power-down order of `ESP32_fini` does not depend
on the shutdown reason. For `SKYWATCH` it is charge LED off, LDO2 off, LDO4
off, LDO3 off, 20 ms settle delay. For `PRIME_MK2` revision 8 it is charge LED
off, LDO2 off, LDO3 off, DCDC2 off, DCDC1 off only when no OLED was found
(`u8x8 == NULL`), EXTEN off, 20 ms settle delay; that sequence is reached
whenever the build has no `setSleep` poll (`PMK2_SLEEP_MODE` other than 2) or
the poll gets `AXP_PASS` within the fuel. -/
theorem C12_power_down_order (k : Platform) (env : FiniEnv) (fuel : Nat)
    (reason : ShutdownReason) (s : State) :
    (∀ other, ESP32_fini k env fuel other s = ESP32_fini k env fuel reason s) ∧
    (s.hw_info.model = Model.SOFTRF_MODEL_SKYWATCH →
      ∃ acts, ESP32_fini k env fuel reason s = some (s, acts) ∧
        power_down_order acts =
          [Action.axp_setChgLEDMode LedMode.AXP20X_LED_OFF,
           Action.axp_setPowerOutPut Rail.AXP202_LDO2 false,
           Action.axp_setPowerOutPut Rail.AXP202_LDO4 false,
           Action.axp_setPowerOutPut Rail.AXP202_LDO3 false,
           Action.delay 20]) ∧
    (s.hw_info.model = Model.SOFTRF_MODEL_PRIME_MK2 → s.hw_info.revision = 8 →
      (k.PMK2_SLEEP_MODE ≠ 2 ∨ ∃ n, n < fuel ∧ env.setSleep n = k.AXP_PASS) →
      ∃ acts, ESP32_fini k env fuel reason s = some (s, acts) ∧
        power_down_order acts =
          [Action.axp_setChgLEDMode LedMode.AXP20X_LED_OFF,
           Action.axp_setPowerOutPut Rail.AXP192_LDO2 false,
           Action.axp_setPowerOutPut Rail.AXP192_LDO3 false,
           Action.axp_setPowerOutPut Rail.AXP192_DCDC2 false] ++
          (if s.u8x8 = none
           then [Action.axp_setPowerOutPut Rail.AXP192_DCDC1 false] else []) ++
          [Action.axp_setPowerOutPut Rail.AXP192_EXTEN false, Action.delay 20]) := by
  refine ⟨fun _ => rfl, ?_, ?_⟩
  · intro hm
    refine ⟨_, by simp only [ESP32_fini, fini_board, if_pos hm, Option.map_some']; rfl, ?_⟩
    simp [power_down_order, upto_settle, is_power_down_step]
  · intro hm hr hterm
    have hpoll : ∃ p, (if k.PMK2_SLEEP_MODE = 2 then fini_poll k env.setSleep fuel 0
        else some []) = some p ∧
        ∀ a ∈ p, a = Action.axp_setSleep ∨ a = Action.delay 500 := by
      by_cases hmode : k.PMK2_SLEEP_MODE = 2
      · rcases hterm with h | ⟨n, hn, hpass⟩
        · exact absurd hmode h
        · obtain ⟨p, hp⟩ := fini_poll_produces k env.setSleep fuel 0
            ⟨n, hn, by simpa using hpass⟩
          exact ⟨p, by rw [if_pos hmode, hp], fini_poll_shape k _ fuel 0 p hp⟩
      · exact ⟨[], by rw [if_neg hmode], fun a ha => absurd ha (List.not_mem_nil a)⟩
    obtain ⟨p, hp, hshape⟩ := hpoll
    refine ⟨_, fini_prime_trace k env fuel reason s hm hr p hp, ?_⟩
    apply fini_prime_order p _ _ hshape
    by_cases hu : s.u8x8 = none
    · exact Or.inl (if_pos hu)
    · exact Or.inr (if_neg hu)

/-- Witness of C12 as amended: the T-Watch powers down LED, LDO2, LDO4, LDO3
and settles. -/
theorem C12_power_down_order_witness :
    twatch.hw_info.model = Model.SOFTRF_MODEL_SKYWATCH ∧
    (∃ acts, ESP32_fini ttgoPlatform setSleepFails 0 ShutdownReason.SOFTRF_SHUTDOWN_BUTTON
        twatch = some (twatch, acts) ∧
      power_down_order acts =
        [Action.axp_setChgLEDMode LedMode.AXP20X_LED_OFF,
         Action.axp_setPowerOutPut Rail.AXP202_LDO2 false,
         Action.axp_setPowerOutPut Rail.AXP202_LDO4 false,
         Action.axp_setPowerOutPut Rail.AXP202_LDO3 false,
         Action.delay 20]) :=
  ⟨by decide,
   (C12_power_down_order ttgoPlatform setSleepFails 0 ShutdownReason.SOFTRF_SHUTDOWN_BUTTON
      twatch).2.1 (by decide)⟩

/-- Counterexample to C13 as stated: on a T-Beam without PMU (`PRIME_MK2`
revision 2) `ESP32_fini` arms no wake source; it goes from the radio and
network shutdown straight to `esp_deep_sleep_start()`. -/
theorem C13_counterexample :
    ESP32_fini ttgoPlatform setSleepFails 1 ShutdownReason.SOFTRF_SHUTDOWN_BUTTON tbeamNoPmu =
      some (tbeamNoPmu,
        [Action.SPI_end, Action.esp_wifi_stop, Action.esp_bt_controller_disable,
         Action.esp_deep_sleep_start]) ∧
    (ESP32_fini ttgoPlatform setSleepFails 1 ShutdownReason.SOFTRF_SHUTDOWN_BUTTON
        tbeamNoPmu).map
      (fun r => decide (Action.esp_sleep_enable_ext1_wakeup
          PmuIrqPin.SOC_GPIO_PIN_TBEAM_V08_PMU_IRQ ∈ r.2 ∨
        Action.esp_sleep_enable_ext1_wakeup
          PmuIrqPin.SOC_GPIO_PIN_TWATCH_PMU_IRQ ∈ r.2)) = some false := by
  decide

/-- C13 as amended: for every shutdown reason, `ESP32_fini` on `SKYWATCH`, and
on `PRIME_MK2` revision 8 when built with `PMK2_SLEEP_MODE` 1, arms the ext1
wake-up on the PMU interrupt line right after the settle delay that ends the
rail power-down and right before `esp_deep_sleep_start()`. On every other
board or build it arms no wake source. Whenever it gets that far, its last
call is `esp_deep_sleep_start()`. -/
theorem C13_wake_source (k : Platform) (env : FiniEnv) (fuel : Nat)
    (reason : ShutdownReason) (s : State) :
    (s.hw_info.model = Model.SOFTRF_MODEL_SKYWATCH →
      ESP32_fini k env fuel reason s = some (s,
        [Action.SPI_end, Action.esp_wifi_stop, Action.esp_bt_controller_disable,
         Action.axp_setChgLEDMode LedMode.AXP20X_LED_OFF,
         Action.axp_setPowerOutPut Rail.AXP202_LDO2 false,
         Action.axp_setPowerOutPut Rail.AXP202_LDO4 false,
         Action.axp_setPowerOutPut Rail.AXP202_LDO3 false,
         Action.delay 20,
         Action.esp_sleep_enable_ext1_wakeup PmuIrqPin.SOC_GPIO_PIN_TWATCH_PMU_IRQ,
         Action.esp_deep_sleep_start])) ∧
    (s.hw_info.model = Model.SOFTRF_MODEL_PRIME_MK2 → s.hw_info.revision = 8 →
      k.PMK2_SLEEP_MODE = 1 →
      ESP32_fini k env fuel reason s = some (s,
        [Action.SPI_end, Action.esp_wifi_stop, Action.esp_bt_controller_disable,
         Action.axp_setChgLEDMode LedMode.AXP20X_LED_OFF,
         Action.axp_setPowerOutPut Rail.AXP192_LDO2 false,
         Action.axp_setPowerOutPut Rail.AXP192_LDO3 false,
         Action.axp_setPowerOutPut Rail.AXP192_DCDC2 false] ++
        (if s.u8x8 = none then [Action.axp_setPowerOutPut Rail.AXP192_DCDC1 false] else []) ++
        [Action.axp_setPowerOutPut Rail.AXP192_EXTEN false,
         Action.delay 20,
         Action.esp_sleep_enable_ext1_wakeup PmuIrqPin.SOC_GPIO_PIN_TBEAM_V08_PMU_IRQ,
         Action.esp_deep_sleep_start])) ∧
    (s.hw_info.model ≠ Model.SOFTRF_MODEL_SKYWATCH →
      ¬ (s.hw_info.model = Model.SOFTRF_MODEL_PRIME_MK2 ∧ s.hw_info.revision = 8 ∧
          k.PMK2_SLEEP_MODE = 1) →
      ∀ st acts pin, ESP32_fini k env fuel reason s = some (st, acts) →
        Action.esp_sleep_enable_ext1_wakeup pin ∉ acts) ∧
    (∀ st acts, ESP32_fini k env fuel reason s = some (st, acts) →
      acts.getLast? = some Action.esp_deep_sleep_start) := by
  refine ⟨?_, ?_, ?_, ?_⟩
  · intro hm
    simp only [ESP32_fini, fini_board, if_pos hm, Option.map_some']
    rfl
  · intro hm hr hmode
    have hp : (if k.PMK2_SLEEP_MODE = 2 then fini_poll k env.setSleep fuel 0 else some [])
        = some [] := by
      rw [if_neg (by omega)]
    rw [fini_prime_trace k env fuel reason s hm hr [] hp]
    simp [fini_sleep_mode, hmode]
  · intro hsky hnot st acts pin hres
    simp only [ESP32_fini, fini_board, if_neg hsky] at hres
    by_cases hp8 : s.hw_info.model = Model.SOFTRF_MODEL_PRIME_MK2 ∧ s.hw_info.revision = 8
    · have hmode : k.PMK2_SLEEP_MODE ≠ 1 := fun h => hnot ⟨hp8.1, hp8.2, h⟩
      rw [if_pos hp8] at hres
      cases hpoll : (if k.PMK2_SLEEP_MODE = 2 then fini_poll k env.setSleep fuel 0
          else some []) with
      | none => simp [hpoll] at hres
      | some p =>
        have hshape : ∀ a ∈ p, a = Action.axp_setSleep ∨ a = Action.delay 500 := by
          by_cases h2 : k.PMK2_SLEEP_MODE = 2
          · rw [if_pos h2] at hpoll
            exact fini_poll_shape k _ fuel 0 p hpoll
          · rw [if_neg h2] at hpoll
            cases hpoll
            exact fun a ha => absurd ha (List.not_mem_nil a)
        simp only [hpoll, Option.map_some', Option.some.injEq, Prod.mk.injEq] at hres
        obtain ⟨_, hacts⟩ := hres
        subst hacts
        intro hin
        have hnp : Action.esp_sleep_enable_ext1_wakeup pin ∉ p := by
          intro h
          rcases hshape _ h with h1 | h1 <;> exact Action.noConfusion h1
        have hns : Action.esp_sleep_enable_ext1_wakeup pin ∉ fini_sleep_mode k := by
          simp only [fini_sleep_mode, if_neg hmode]
          split_ifs <;> simp
        have hdc : Action.esp_sleep_enable_ext1_wakeup pin ∉
            (if s.u8x8 = none then [Action.axp_setPowerOutPut Rail.AXP192_DCDC1 false]
             else []) := by
          split_ifs <;> simp
        simp [List.mem_append, hnp, hns, hdc] at hin
    · rw [if_neg hp8] at hres
      simp only [Option.map_some', Option.some.injEq, Prod.mk.injEq] at hres
      obtain ⟨_, hacts⟩ := hres
      subst hacts
      simp
  · intro st acts hres
    simp only [ESP32_fini] at hres
    cases hb : fini_board k env fuel s with
    | none => simp [hb] at hres
    | some board =>
      simp only [hb, Option.map_some', Option.some.injEq, Prod.mk.injEq] at hres
      obtain ⟨_, hacts⟩ := hres
      subst hacts
      exact List.getLast?_concat _

/-- Witness of C13 as amended: the T-Watch arms the wake-up on its PMU
interrupt line between the settle delay and the deep sleep. -/
theorem C13_wake_source_witness :
    twatch.hw_info.model = Model.SOFTRF_MODEL_SKYWATCH ∧
    ESP32_fini ttgoPlatform setSleepFails 0 ShutdownReason.SOFTRF_SHUTDOWN_BUTTON twatch =
      some (twatch,
        [Action.SPI_end, Action.esp_wifi_stop, Action.esp_bt_controller_disable,
         Action.axp_setChgLEDMode LedMode.AXP20X_LED_OFF,
         Action.axp_setPowerOutPut Rail.AXP202_LDO2 false,
         Action.axp_setPowerOutPut Rail.AXP202_LDO4 false,
         Action.axp_setPowerOutPut Rail.AXP202_LDO3 false,
         Action.delay 20,
         Action.esp_sleep_enable_ext1_wakeup PmuIrqPin.SOC_GPIO_PIN_TWATCH_PMU_IRQ,
         Action.esp_deep_sleep_start]) :=
  ⟨by decide,
   (C13_wake_source ttgoPlatform setSleepFails 0 ShutdownReason.SOFTRF_SHUTDOWN_BUTTON
      twatch).1 (by decide)⟩

/-- Counterexample to C14 as stated: on `PRIME_MK2` revision 8 built with
`PMK2_SLEEP_MODE` 2 and a PMU whose `setSleep` never returns `AXP_PASS`, no
number of rounds lets the poll stop: `ESP32_fini` never reaches the rail
power-down. -/
theorem C14_counterexample :
    tbeamPmu.hw_info.model = Model.SOFTRF_MODEL_PRIME_MK2 ∧
    tbeamPmu.hw_info.revision = 8 ∧
    sleepMode2Platform.PMK2_SLEEP_MODE = 2 ∧
    ¬ ∃ fuel, (ESP32_fini sleepMode2Platform setSleepFails fuel
        ShutdownReason.SOFTRF_SHUTDOWN_BUTTON tbeamPmu).isSome = true := by
  refine ⟨by decide, by decide, rfl, ?_⟩
  rintro ⟨fuel, h⟩
  have hnever := fini_poll_never sleepMode2Platform setSleepFails.setSleep
    (fun _ => (by decide : (1 : Int) ≠ 0)) fuel 0
  have hm : tbeamPmu.hw_info.model = Model.SOFTRF_MODEL_PRIME_MK2 := by decide
  have hr : tbeamPmu.hw_info.revision = 8 := by decide
  have hmode : sleepMode2Platform.PMK2_SLEEP_MODE = 2 := rfl
  simp [ESP32_fini, fini_board, hm, hr, hmode, hnever] at h

/-- C14 as amended: the poll of the `PMK2_SLEEP_MODE` 2 variant on `PRIME_MK2`
revision 8 repeats `axp.setSleep()`, each call followed by a 500 ms delay,
until a call returns `AXP_PASS`; it has no retry bound. When call number `n`
(from 0) is the first to return `AXP_PASS`, the poll stops after `n + 1` calls
and `ESP32_fini` goes on to the rail power-down, cuts DCDC3 and calls
`esp_deep_sleep_start()`; when no call returns `AXP_PASS` the poll never stops,
whatever the number of rounds. -/
theorem C14_poll_until_pass (k : Platform) (env : FiniEnv) (reason : ShutdownReason)
    (s : State) (hm : s.hw_info.model = Model.SOFTRF_MODEL_PRIME_MK2)
    (hr : s.hw_info.revision = 8) (hmode : k.PMK2_SLEEP_MODE = 2) :
    (∀ n, (∀ i, i < n → env.setSleep i ≠ k.AXP_PASS) → env.setSleep n = k.AXP_PASS →
      ∀ fuel, n < fuel →
        ESP32_fini k env fuel reason s = some (s,
          [Action.SPI_end, Action.esp_wifi_stop, Action.esp_bt_controller_disable,
           Action.axp_setChgLEDMode LedMode.AXP20X_LED_OFF] ++
          (List.replicate (n + 1) [Action.axp_setSleep, Action.delay 500]).flatten ++
          [Action.axp_setPowerOutPut Rail.AXP192_LDO2 false,
           Action.axp_setPowerOutPut Rail.AXP192_LDO3 false,
           Action.axp_setPowerOutPut Rail.AXP192_DCDC2 false] ++
          (if s.u8x8 = none
           then [Action.axp_setPowerOutPut Rail.AXP192_DCDC1 false] else []) ++
          [Action.axp_setPowerOutPut Rail.AXP192_EXTEN false,
           Action.delay 20,
           Action.axp_setPowerOutPut Rail.AXP192_DCDC3 false,
           Action.esp_deep_sleep_start])) ∧
    ((∀ i, env.setSleep i ≠ k.AXP_PASS) →
      ∀ fuel, ESP32_fini k env fuel reason s = none) := by
  have hsky : s.hw_info.model ≠ Model.SOFTRF_MODEL_SKYWATCH := by
    rw [hm]; decide
  constructor
  · intro n hfail hpass fuel hfuel
    have hpoll := fini_poll_first_pass k env.setSleep n fuel 0
      (fun j hj => by simpa using hfail j hj) (by simpa using hpass) hfuel
    have hp : (if k.PMK2_SLEEP_MODE = 2 then fini_poll k env.setSleep fuel 0 else some [])
        = some (List.replicate (n + 1) [Action.axp_setSleep, Action.delay 500]).flatten := by
      rw [if_pos hmode, hpoll]
    rw [fini_prime_trace k env fuel reason s hm hr _ hp]
    simp [fini_sleep_mode, hmode]
  · intro hfail fuel
    have hnever := fini_poll_never k env.setSleep hfail fuel 0
    simp [ESP32_fini, fini_board, hsky, hm, hr, hmode, hnever]

/-- Witness of C14 as amended: `setSleep` passes on its third call, the poll
makes three calls and `ESP32_fini` ends in `esp_deep_sleep_start()`. -/
theorem C14_poll_until_pass_witness :
    ESP32_fini sleepMode2Platform setSleepThird 5 ShutdownReason.SOFTRF_SHUTDOWN_BUTTON
        tbeamPmu = some (tbeamPmu,
      [Action.SPI_end, Action.esp_wifi_stop, Action.esp_bt_controller_disable,
       Action.axp_setChgLEDMode LedMode.AXP20X_LED_OFF] ++
      (List.replicate (2 + 1) [Action.axp_setSleep, Action.delay 500]).flatten ++
      [Action.axp_setPowerOutPut Rail.AXP192_LDO2 false,
       Action.axp_setPowerOutPut Rail.AXP192_LDO3 false,
       Action.axp_setPowerOutPut Rail.AXP192_DCDC2 false] ++
      (if tbeamPmu.u8x8 = none
       then [Action.axp_setPowerOutPut Rail.AXP192_DCDC1 false] else []) ++
      [Action.axp_setPowerOutPut Rail.AXP192_EXTEN false,
       Action.delay 20,
       Action.axp_setPowerOutPut Rail.AXP192_DCDC3 false,
       Action.esp_deep_sleep_start]) :=
  (C14_poll_until_pass sleepMode2Platform setSleepThird ShutdownReason.SOFTRF_SHUTDOWN_BUTTON
    tbeamPmu (by decide) (by decide) rfl).1 2 (by decide) (by decide) 5 (by decide)

end SoftRF
